import Mathlib

/-!
# Workflow-state statistics (`common/persistence/statsComputer.go`)

A shallow embedding of the statistics computer of the persistence layer and
the properties of its results.

Modelling conventions.

* Go `int` is embedded as `GoInt`, the integers of a 64-bit build: an `Int`
  in `[-2^63, 2^63)` whose `+` is the sum reduced modulo `2^64` into that
  range (`wrap`), as Go's `+`, `+=` and `++` are.  Every `+`, `0`, numeral and
  `List.sum` on statistics below is Go arithmetic; `GoInt.val` is the integer
  a value stands for.
* Go `string` and `[]byte` are embedded as `List UInt8`; the code reads them
  only through `len`, which is `List.length`.
* A Go pointer is an `Option`; dereferencing `nil` is the result `none` of
  the enclosing function.
* A collection that the code only ranges over, discarding the key, is the
  list of its values in the order the iteration meets them.
* A Go `map` whose keys are read is an association list without duplicate
  keys (`AList`); ranging over it is a fold over its entries in the stored
  order, one of the orders the Go runtime may choose.  Two maps are the same
  map when every key looks up to the same result in both (`SameMap`).
* Structures list only the fields that the code reads and, for the
  child-execution record, its identifiers, which the code does not read.
-/

namespace Persistence

/-! ## Data model -/

/-- A Go `string` or `[]byte`, read only through `len`. -/
abbrev GoBytes := List UInt8

/-- Reduction of an integer to the range of Go `int` on a 64-bit build: the
integer in `[-2^63, 2^63)` that differs from `x` by a multiple of `2^64`. -/
@[irreducible] def wrap (x : Int) : Int :=
  (x + 9223372036854775808) % 18446744073709551616 - 9223372036854775808

/-- Go `int` on a 64-bit build: an integer in `[-2^63, 2^63)`. -/
structure GoInt where
  val : Int
  inRange : -9223372036854775808 ≤ val ∧ val < 9223372036854775808

namespace GoInt

/-- The Go `int` that an integer wraps to. -/
def ofInt (x : Int) : GoInt := ⟨wrap x, by unfold wrap; omega⟩

instance : DecidableEq GoInt := fun a b =>
  decidable_of_iff (a.val = b.val) (by cases a; cases b; simp)

instance : Zero GoInt := ⟨ofInt 0⟩

instance : One GoInt := ⟨ofInt 1⟩

/-- Go `+` on `int`: the sum, wrapped. -/
instance : Add GoInt := ⟨fun a b => ofInt (a.val + b.val)⟩

instance : NatCast GoInt := ⟨fun n => ofInt n⟩

instance : AddCommMonoidWithOne GoInt where
  add_assoc a b c := by
    obtain ⟨a, ha⟩ := a; obtain ⟨b, hb⟩ := b; obtain ⟨c, hc⟩ := c
    show ofInt ((ofInt (a + b)).val + c) = ofInt (a + (ofInt (b + c)).val)
    simp only [ofInt, wrap, mk.injEq]; omega
  zero_add a := by
    obtain ⟨a, ha⟩ := a
    show ofInt ((ofInt 0).val + a) = _
    simp only [ofInt, wrap, mk.injEq]; omega
  add_zero a := by
    obtain ⟨a, ha⟩ := a
    show ofInt (a + (ofInt 0).val) = _
    simp only [ofInt, wrap, mk.injEq]; omega
  add_comm a b := by
    show ofInt (a.val + b.val) = ofInt (b.val + a.val)
    rw [Int.add_comm]
  nsmul := nsmulRec
  natCast_zero := rfl
  natCast_succ n := by
    show ofInt ((n + 1 : ℕ) : Int) = ofInt ((ofInt n).val + (ofInt 1).val)
    simp only [ofInt, wrap, mk.injEq]; omega

end GoInt

/-- Go `len` of a string, slice or map, as a Go `int`.  What Go can hold has
fewer than `2^63` elements, and there the value is the number of elements. -/
def len {α : Type} (l : List α) : GoInt := (l.length : GoInt)

/-- A Go map with keys `K` and values `V`. -/
abbrev GoMap (K V : Type) := AList (fun _ : K => V)

/-- Serialized payload. -/
structure DataBlob where
  Data : GoBytes
deriving DecidableEq

structure InternalWorkflowExecutionInfo where
  WorkflowID : GoBytes
  TaskList : GoBytes
  WorkflowTypeName : GoBytes
  ParentWorkflowID : GoBytes
deriving DecidableEq

structure InternalActivityInfo where
  ScheduledEvent : Option DataBlob
  StartedEvent : Option DataBlob
  ActivityID : GoBytes
  Details : GoBytes
deriving DecidableEq

structure TimerInfo where
  TimerID : GoBytes
deriving DecidableEq

/-- Child-execution record.  `InitiatedID` and `StartedWorkflowID` are its
identifiers; the size rule reads neither. -/
structure InternalChildExecutionInfo where
  InitiatedID : Int
  InitiatedEvent : Option DataBlob
  StartedWorkflowID : GoBytes
  StartedEvent : Option DataBlob
deriving DecidableEq

structure SignalInfo where
  SignalName : GoBytes
  Input : GoBytes
  Control : GoBytes
deriving DecidableEq

/-- Request-cancel record: the code reads only how many there are. -/
structure RequestCancelInfo where
deriving DecidableEq

structure InternalWorkflowMutableState where
  ExecutionInfo : Option InternalWorkflowExecutionInfo
  ActivityInfos : List (Option InternalActivityInfo)
  TimerInfos : List (Option TimerInfo)
  ChildExecutionInfos : List (Option InternalChildExecutionInfo)
  RequestCancelInfos : List (Option RequestCancelInfo)
  SignalInfos : List (Option SignalInfo)
  BufferedEvents : List (Option DataBlob)

structure InternalGetWorkflowExecutionResponse where
  State : Option InternalWorkflowMutableState

/-- Mutation of a workflow; `K` is `HistoryTaskCategory` and `T` is `Task`,
both declared outside this file. -/
structure InternalWorkflowMutation (K T : Type) where
  ExecutionInfo : Option InternalWorkflowExecutionInfo
  UpsertActivityInfos : List (Option InternalActivityInfo)
  DeleteActivityInfos : List Int
  UpsertTimerInfos : List (Option TimerInfo)
  DeleteTimerInfos : List GoBytes
  UpsertChildExecutionInfos : List (Option InternalChildExecutionInfo)
  DeleteChildExecutionInfos : List Int
  UpsertRequestCancelInfos : List (Option RequestCancelInfo)
  DeleteRequestCancelInfos : List Int
  UpsertSignalInfos : List (Option SignalInfo)
  DeleteSignalInfos : List Int
  NewBufferedEvents : Option DataBlob
  TasksByCategory : GoMap K (List T)

/-- Snapshot of a workflow; `K` is `HistoryTaskCategory` and `T` is `Task`. -/
structure InternalWorkflowSnapshot (K T : Type) where
  ExecutionInfo : Option InternalWorkflowExecutionInfo
  ActivityInfos : List (Option InternalActivityInfo)
  TimerInfos : List (Option TimerInfo)
  ChildExecutionInfos : List (Option InternalChildExecutionInfo)
  RequestCancelInfos : List (Option RequestCancelInfo)
  SignalInfos : List (Option SignalInfo)
  TasksByCategory : GoMap K (List T)

structure InternalUpdateWorkflowExecutionRequest (K T : Type) where
  UpdateWorkflowMutation : InternalWorkflowMutation K T
  NewWorkflowSnapshot : Option (InternalWorkflowSnapshot K T)

structure InternalCreateWorkflowExecutionRequest (K T : Type) where
  NewWorkflowSnapshot : InternalWorkflowSnapshot K T

structure InternalConflictResolveWorkflowExecutionRequest (K T : Type) where
  ResetWorkflowSnapshot : InternalWorkflowSnapshot K T
  NewWorkflowSnapshot : Option (InternalWorkflowSnapshot K T)
  CurrentWorkflowMutation : Option (InternalWorkflowMutation K T)

/-- Statistics of a full mutable state. -/
structure MutableStateStats where
  MutableStateSize : GoInt
  ExecutionInfoSize : GoInt
  ActivityInfoSize : GoInt
  TimerInfoSize : GoInt
  ChildInfoSize : GoInt
  SignalInfoSize : GoInt
  BufferedEventsSize : GoInt
  ActivityInfoCount : GoInt
  TimerInfoCount : GoInt
  ChildInfoCount : GoInt
  SignalInfoCount : GoInt
  RequestCancelInfoCount : GoInt
  BufferedEventsCount : GoInt
deriving DecidableEq

/-- Statistics of one update session. -/
structure MutableStateUpdateSessionStats (K : Type) where
  MutableStateSize : GoInt
  ExecutionInfoSize : GoInt
  ActivityInfoSize : GoInt
  TimerInfoSize : GoInt
  ChildInfoSize : GoInt
  SignalInfoSize : GoInt
  BufferedEventsSize : GoInt
  ActivityInfoCount : GoInt
  TimerInfoCount : GoInt
  ChildInfoCount : GoInt
  SignalInfoCount : GoInt
  RequestCancelInfoCount : GoInt
  DeleteActivityInfoCount : GoInt
  DeleteTimerInfoCount : GoInt
  DeleteChildInfoCount : GoInt
  DeleteSignalInfoCount : GoInt
  DeleteRequestCancelInfoCount : GoInt
  TaskCountByCategory : GoMap K GoInt

/-! ## Size rules -/

def computeExecutionInfoSize (executionInfo : Option InternalWorkflowExecutionInfo) :
    Option GoInt := do
  let executionInfo ← executionInfo
  let size := len executionInfo.WorkflowID
  let size := size + len executionInfo.TaskList
  let size := size + len executionInfo.WorkflowTypeName
  let size := size + len executionInfo.ParentWorkflowID
  pure size

def computeActivityInfoSize (ai : Option InternalActivityInfo) : Option GoInt := do
  let ai ← ai
  let size := len ai.ActivityID
  let size := match ai.ScheduledEvent with
    | some ev => size + len ev.Data
    | none => size
  let size := match ai.StartedEvent with
    | some ev => size + len ev.Data
    | none => size
  let size := size + len ai.Details
  pure size

def computeTimerInfoSize (ti : Option TimerInfo) : Option GoInt := do
  let ti ← ti
  let size := len ti.TimerID
  pure size

def computeChildInfoSize (ci : Option InternalChildExecutionInfo) : Option GoInt := do
  let ci ← ci
  let size : GoInt := 0
  let size := match ci.InitiatedEvent with
    | some ev => size + len ev.Data
    | none => size
  let size := match ci.StartedEvent with
    | some ev => size + len ev.Data
    | none => size
  pure size

def computeSignalInfoSize (si : Option SignalInfo) : Option GoInt := do
  let si ← si
  let size := len si.SignalName
  let size := size + len si.Input
  let size := size + len si.Control
  pure size

/-- Size of one buffered event, `len(be.Data)`. -/
def bufferedEventSize (be : Option DataBlob) : Option GoInt := do
  let be ← be
  pure (len be.Data)

/-- Body `m[k] = len(v)` of the loop of `computeTaskCountByCategory`. -/
def setTaskCount {K T : Type} [DecidableEq K] (m : GoMap K GoInt) (k : K) (v : List T) :
    GoMap K GoInt :=
  AList.insert k (len v) m

def computeTaskCountByCategory {K T : Type} [DecidableEq K] (tasks : GoMap K (List T)) :
    GoMap K GoInt :=
  AList.foldl setTaskCount (∅ : GoMap K GoInt) tasks

/-- The loop `for _, x := range xs { count++; size += f(x) }`, started at
`count = 0`, `size = 0`; the result is `(count, size)`. -/
def rangeCountSize {α : Type} (f : Option α → Option GoInt) (xs : List (Option α)) :
    Option (GoInt × GoInt) :=
  xs.foldlM (fun (acc : GoInt × GoInt) x => do
    let size ← f x
    pure (acc.1 + 1, acc.2 + size)) (0, 0)

/-! ## Entry points -/

def computeMutableStateStats (req : InternalGetWorkflowExecutionResponse) :
    Option MutableStateStats := do
  let state ← req.State
  let executionInfoSize ← computeExecutionInfoSize state.ExecutionInfo
  let (activityInfoCount, activityInfoSize) ←
    rangeCountSize computeActivityInfoSize state.ActivityInfos
  let (timerInfoCount, timerInfoSize) ←
    rangeCountSize computeTimerInfoSize state.TimerInfos
  let (childExecutionInfoCount, childExecutionInfoSize) ←
    rangeCountSize computeChildInfoSize state.ChildExecutionInfos
  let (signalInfoCount, signalInfoSize) ←
    rangeCountSize computeSignalInfoSize state.SignalInfos
  let (bufferedEventsCount, bufferedEventsSize) ←
    rangeCountSize bufferedEventSize state.BufferedEvents
  let requestCancelInfoCount := len state.RequestCancelInfos
  let totalSize := executionInfoSize
  let totalSize := totalSize + activityInfoSize
  let totalSize := totalSize + timerInfoSize
  let totalSize := totalSize + childExecutionInfoSize
  let totalSize := totalSize + signalInfoSize
  let totalSize := totalSize + bufferedEventsSize
  pure {
    MutableStateSize := totalSize
    ExecutionInfoSize := executionInfoSize
    ActivityInfoSize := activityInfoSize
    TimerInfoSize := timerInfoSize
    ChildInfoSize := childExecutionInfoSize
    SignalInfoSize := signalInfoSize
    BufferedEventsSize := bufferedEventsSize
    ActivityInfoCount := activityInfoCount
    TimerInfoCount := timerInfoCount
    ChildInfoCount := childExecutionInfoCount
    SignalInfoCount := signalInfoCount
    BufferedEventsCount := bufferedEventsCount
    RequestCancelInfoCount := requestCancelInfoCount }

section Session

variable {K T : Type} [DecidableEq K]

def computeWorkflowMutationStats (req : InternalWorkflowMutation K T) :
    Option (MutableStateUpdateSessionStats K) := do
  let executionInfoSize ← computeExecutionInfoSize req.ExecutionInfo
  let (activityInfoCount, activityInfoSize) ←
    rangeCountSize computeActivityInfoSize req.UpsertActivityInfos
  let (timerInfoCount, timerInfoSize) ←
    rangeCountSize computeTimerInfoSize req.UpsertTimerInfos
  let (childExecutionInfoCount, childExecutionInfoSize) ←
    rangeCountSize computeChildInfoSize req.UpsertChildExecutionInfos
  let (signalInfoCount, signalInfoSize) ←
    rangeCountSize computeSignalInfoSize req.UpsertSignalInfos
  let bufferedEventsSize : GoInt := match req.NewBufferedEvents with
    | some ev => len ev.Data
    | none => 0
  let requestCancelInfoCount := len req.UpsertRequestCancelInfos
  let deleteActivityInfoCount := len req.DeleteActivityInfos
  let deleteTimerInfoCount := len req.DeleteTimerInfos
  let deleteChildInfoCount := len req.DeleteChildExecutionInfos
  let deleteSignalInfoCount := len req.DeleteSignalInfos
  let deleteRequestCancelInfoCount := len req.DeleteRequestCancelInfos
  let taskCountByCategory := computeTaskCountByCategory req.TasksByCategory
  let totalSize := executionInfoSize
  let totalSize := totalSize + activityInfoSize
  let totalSize := totalSize + timerInfoSize
  let totalSize := totalSize + childExecutionInfoSize
  let totalSize := totalSize + signalInfoSize
  let totalSize := totalSize + bufferedEventsSize
  pure {
    MutableStateSize := totalSize
    ExecutionInfoSize := executionInfoSize
    ActivityInfoSize := activityInfoSize
    TimerInfoSize := timerInfoSize
    ChildInfoSize := childExecutionInfoSize
    SignalInfoSize := signalInfoSize
    BufferedEventsSize := bufferedEventsSize
    ActivityInfoCount := activityInfoCount
    TimerInfoCount := timerInfoCount
    ChildInfoCount := childExecutionInfoCount
    SignalInfoCount := signalInfoCount
    RequestCancelInfoCount := requestCancelInfoCount
    DeleteActivityInfoCount := deleteActivityInfoCount
    DeleteTimerInfoCount := deleteTimerInfoCount
    DeleteChildInfoCount := deleteChildInfoCount
    DeleteSignalInfoCount := deleteSignalInfoCount
    DeleteRequestCancelInfoCount := deleteRequestCancelInfoCount
    TaskCountByCategory := taskCountByCategory }

def computeWorkflowSnapshotStats (req : InternalWorkflowSnapshot K T) :
    Option (MutableStateUpdateSessionStats K) := do
  let executionInfoSize ← computeExecutionInfoSize req.ExecutionInfo
  let (activityInfoCount, activityInfoSize) ←
    rangeCountSize computeActivityInfoSize req.ActivityInfos
  let (timerInfoCount, timerInfoSize) ←
    rangeCountSize computeTimerInfoSize req.TimerInfos
  let (childExecutionInfoCount, childExecutionInfoSize) ←
    rangeCountSize computeChildInfoSize req.ChildExecutionInfos
  let (signalInfoCount, signalInfoSize) ←
    rangeCountSize computeSignalInfoSize req.SignalInfos
  let requestCancelInfoCount := len req.RequestCancelInfos
  let taskCountByCategory := computeTaskCountByCategory req.TasksByCategory
  let totalSize := executionInfoSize
  let totalSize := totalSize + activityInfoSize
  let totalSize := totalSize + timerInfoSize
  let totalSize := totalSize + childExecutionInfoSize
  let totalSize := totalSize + signalInfoSize
  pure {
    MutableStateSize := totalSize
    ExecutionInfoSize := executionInfoSize
    ActivityInfoSize := activityInfoSize
    TimerInfoSize := timerInfoSize
    ChildInfoSize := childExecutionInfoSize
    SignalInfoSize := signalInfoSize
    BufferedEventsSize := 0
    ActivityInfoCount := activityInfoCount
    TimerInfoCount := timerInfoCount
    ChildInfoCount := childExecutionInfoCount
    SignalInfoCount := signalInfoCount
    RequestCancelInfoCount := requestCancelInfoCount
    DeleteActivityInfoCount := 0
    DeleteTimerInfoCount := 0
    DeleteChildInfoCount := 0
    DeleteSignalInfoCount := 0
    DeleteRequestCancelInfoCount := 0
    TaskCountByCategory := taskCountByCategory }

/-- Body `result.TaskCountByCategory[k] += v` of the inner loop of the merge;
a key that is not in the map yet reads as `0`. -/
def addTaskCount (m : GoMap K GoInt) (k : K) (v : GoInt) : GoMap K GoInt :=
  AList.insert k ((AList.lookup k m).getD 0 + v) m

/-- One round of the outer loop of the merge: `s` is added to `result`. -/
def mergeStep (result s : MutableStateUpdateSessionStats K) :
    MutableStateUpdateSessionStats K where
  MutableStateSize := result.MutableStateSize + s.MutableStateSize
  ExecutionInfoSize := result.ExecutionInfoSize + s.ExecutionInfoSize
  ActivityInfoSize := result.ActivityInfoSize + s.ActivityInfoSize
  TimerInfoSize := result.TimerInfoSize + s.TimerInfoSize
  ChildInfoSize := result.ChildInfoSize + s.ChildInfoSize
  SignalInfoSize := result.SignalInfoSize + s.SignalInfoSize
  BufferedEventsSize := result.BufferedEventsSize + s.BufferedEventsSize
  ActivityInfoCount := result.ActivityInfoCount + s.ActivityInfoCount
  TimerInfoCount := result.TimerInfoCount + s.TimerInfoCount
  ChildInfoCount := result.ChildInfoCount + s.ChildInfoCount
  SignalInfoCount := result.SignalInfoCount + s.SignalInfoCount
  RequestCancelInfoCount := result.RequestCancelInfoCount + s.RequestCancelInfoCount
  DeleteActivityInfoCount := result.DeleteActivityInfoCount + s.DeleteActivityInfoCount
  DeleteTimerInfoCount := result.DeleteTimerInfoCount + s.DeleteTimerInfoCount
  DeleteChildInfoCount := result.DeleteChildInfoCount + s.DeleteChildInfoCount
  DeleteSignalInfoCount := result.DeleteSignalInfoCount + s.DeleteSignalInfoCount
  DeleteRequestCancelInfoCount :=
    result.DeleteRequestCancelInfoCount + s.DeleteRequestCancelInfoCount
  TaskCountByCategory := AList.foldl addTaskCount result.TaskCountByCategory s.TaskCountByCategory

/-- The value `&MutableStateUpdateSessionStats{TaskCountByCategory: make(...)}`
the merge starts from: every numeric field is zero and the map is empty. -/
def zeroStats : MutableStateUpdateSessionStats K where
  MutableStateSize := 0
  ExecutionInfoSize := 0
  ActivityInfoSize := 0
  TimerInfoSize := 0
  ChildInfoSize := 0
  SignalInfoSize := 0
  BufferedEventsSize := 0
  ActivityInfoCount := 0
  TimerInfoCount := 0
  ChildInfoCount := 0
  SignalInfoCount := 0
  RequestCancelInfoCount := 0
  DeleteActivityInfoCount := 0
  DeleteTimerInfoCount := 0
  DeleteChildInfoCount := 0
  DeleteSignalInfoCount := 0
  DeleteRequestCancelInfoCount := 0
  TaskCountByCategory := ∅

/-- The variadic merge.  Its arguments are the statistics the pointers refer
to: every call site passes freshly built, non-nil results. -/
def mergeMutableStateUpdateSessionStats (stats : List (MutableStateUpdateSessionStats K)) :
    MutableStateUpdateSessionStats K :=
  stats.foldl mergeStep zeroStats

def computeMutableStateUpdateStats (req : InternalUpdateWorkflowExecutionRequest K T) :
    Option (MutableStateUpdateSessionStats K) :=
  match req.NewWorkflowSnapshot with
  | some snapshot => do
    let m ← computeWorkflowMutationStats req.UpdateWorkflowMutation
    let s ← computeWorkflowSnapshotStats snapshot
    pure (mergeMutableStateUpdateSessionStats [m, s])
  | none => computeWorkflowMutationStats req.UpdateWorkflowMutation

def computeMutableStateCreateStats (req : InternalCreateWorkflowExecutionRequest K T) :
    Option (MutableStateUpdateSessionStats K) :=
  computeWorkflowSnapshotStats req.NewWorkflowSnapshot

def computeMutableStateConflictResolveStats
    (req : InternalConflictResolveWorkflowExecutionRequest K T) :
    Option (MutableStateUpdateSessionStats K) := do
  let mss ← computeWorkflowSnapshotStats req.ResetWorkflowSnapshot
  let mss ← match req.NewWorkflowSnapshot with
    | some snapshot => do
      let s ← computeWorkflowSnapshotStats snapshot
      pure (mergeMutableStateUpdateSessionStats [mss, s])
    | none => pure mss
  let mss ← match req.CurrentWorkflowMutation with
    | some mutation => do
      let s ← computeWorkflowMutationStats mutation
      pure (mergeMutableStateUpdateSessionStats [mss, s])
    | none => pure mss
  pure mss

end Session

/-! ## Well-formed inputs -/

/-- No entry of the collection is a nil pointer. -/
def noNil {α : Type} (xs : List (Option α)) : Prop := ∀ x ∈ xs, x.isSome = true

instance {α : Type} (xs : List (Option α)) : Decidable (noNil xs) := by
  unfold noNil; infer_instance

/-- The state and its execution descriptor are present and no collection the
code dereferences into holds a nil entry. -/
def WellFormedResponse (req : InternalGetWorkflowExecutionResponse) : Prop :=
  match req.State with
  | none => False
  | some state =>
    state.ExecutionInfo.isSome = true ∧ noNil state.ActivityInfos ∧ noNil state.TimerInfos ∧
      noNil state.ChildExecutionInfos ∧ noNil state.SignalInfos ∧ noNil state.BufferedEvents

instance (req : InternalGetWorkflowExecutionResponse) : Decidable (WellFormedResponse req) := by
  unfold WellFormedResponse; split <;> infer_instance

section SessionPredicates

variable {K T : Type}

/-- The execution descriptor is present and no collection the code
dereferences into holds a nil entry. -/
def WellFormedSnapshot (req : InternalWorkflowSnapshot K T) : Prop :=
  req.ExecutionInfo.isSome = true ∧ noNil req.ActivityInfos ∧ noNil req.TimerInfos ∧
    noNil req.ChildExecutionInfos ∧ noNil req.SignalInfos

instance (req : InternalWorkflowSnapshot K T) : Decidable (WellFormedSnapshot req) := by
  unfold WellFormedSnapshot; infer_instance

/-- The execution descriptor is present and no upsert collection holds a nil
entry. -/
def WellFormedMutation (req : InternalWorkflowMutation K T) : Prop :=
  req.ExecutionInfo.isSome = true ∧ noNil req.UpsertActivityInfos ∧
    noNil req.UpsertTimerInfos ∧ noNil req.UpsertChildExecutionInfos ∧
    noNil req.UpsertSignalInfos

instance (req : InternalWorkflowMutation K T) : Decidable (WellFormedMutation req) := by
  unfold WellFormedMutation; infer_instance

/-- The mutation is well formed and so is the new snapshot when there is one. -/
def WellFormedUpdateRequest (req : InternalUpdateWorkflowExecutionRequest K T) : Prop :=
  WellFormedMutation req.UpdateWorkflowMutation ∧
    ∀ snapshot ∈ req.NewWorkflowSnapshot, WellFormedSnapshot snapshot

instance (req : InternalUpdateWorkflowExecutionRequest K T) :
    Decidable (WellFormedUpdateRequest req) := by
  unfold WellFormedUpdateRequest; infer_instance

def WellFormedCreateRequest (req : InternalCreateWorkflowExecutionRequest K T) : Prop :=
  WellFormedSnapshot req.NewWorkflowSnapshot

instance (req : InternalCreateWorkflowExecutionRequest K T) :
    Decidable (WellFormedCreateRequest req) := by
  unfold WellFormedCreateRequest; infer_instance

/-- The reset snapshot is well formed and so are the new snapshot and the
current mutation when they are there. -/
def WellFormedConflictResolveRequest
    (req : InternalConflictResolveWorkflowExecutionRequest K T) : Prop :=
  WellFormedSnapshot req.ResetWorkflowSnapshot ∧
    (∀ snapshot ∈ req.NewWorkflowSnapshot, WellFormedSnapshot snapshot) ∧
    ∀ mutation ∈ req.CurrentWorkflowMutation, WellFormedMutation mutation

instance (req : InternalConflictResolveWorkflowExecutionRequest K T) :
    Decidable (WellFormedConflictResolveRequest req) := by
  unfold WellFormedConflictResolveRequest; infer_instance

/-! ## Properties of statistics values -/

/-- Total size is the sum of the six per-kind sizes. -/
def TotalSizeInvariant (s : MutableStateUpdateSessionStats K) : Prop :=
  s.MutableStateSize = s.ExecutionInfoSize + s.ActivityInfoSize + s.TimerInfoSize +
    s.ChildInfoSize + s.SignalInfoSize + s.BufferedEventsSize

instance (s : MutableStateUpdateSessionStats K) : Decidable (TotalSizeInvariant s) := by
  unfold TotalSizeInvariant; infer_instance

/-- The seventeen numeric fields, in the order of the declaration. -/
def numericFields (s : MutableStateUpdateSessionStats K) : List GoInt :=
  [s.MutableStateSize, s.ExecutionInfoSize, s.ActivityInfoSize, s.TimerInfoSize,
   s.ChildInfoSize, s.SignalInfoSize, s.BufferedEventsSize,
   s.ActivityInfoCount, s.TimerInfoCount, s.ChildInfoCount, s.SignalInfoCount,
   s.RequestCancelInfoCount,
   s.DeleteActivityInfoCount, s.DeleteTimerInfoCount, s.DeleteChildInfoCount,
   s.DeleteSignalInfoCount, s.DeleteRequestCancelInfoCount]

/-- The projections to the seventeen numeric fields, in the same order. -/
def numericProjections : List (MutableStateUpdateSessionStats K → GoInt) :=
  [MutableStateUpdateSessionStats.MutableStateSize,
   MutableStateUpdateSessionStats.ExecutionInfoSize,
   MutableStateUpdateSessionStats.ActivityInfoSize,
   MutableStateUpdateSessionStats.TimerInfoSize,
   MutableStateUpdateSessionStats.ChildInfoSize,
   MutableStateUpdateSessionStats.SignalInfoSize,
   MutableStateUpdateSessionStats.BufferedEventsSize,
   MutableStateUpdateSessionStats.ActivityInfoCount,
   MutableStateUpdateSessionStats.TimerInfoCount,
   MutableStateUpdateSessionStats.ChildInfoCount,
   MutableStateUpdateSessionStats.SignalInfoCount,
   MutableStateUpdateSessionStats.RequestCancelInfoCount,
   MutableStateUpdateSessionStats.DeleteActivityInfoCount,
   MutableStateUpdateSessionStats.DeleteTimerInfoCount,
   MutableStateUpdateSessionStats.DeleteChildInfoCount,
   MutableStateUpdateSessionStats.DeleteSignalInfoCount,
   MutableStateUpdateSessionStats.DeleteRequestCancelInfoCount]

/-- Count stored under `k`, `none` when `k` is not a key of the map. -/
def taskCount [DecidableEq K] (s : MutableStateUpdateSessionStats K) (k : K) : Option GoInt :=
  AList.lookup k s.TaskCountByCategory

/-- Two maps with the same keys and the same value under every key. -/
def SameMap [DecidableEq K] {V : Type} (m₁ m₂ : GoMap K V) : Prop :=
  ∀ k, AList.lookup k m₁ = AList.lookup k m₂

/-- Two statistics values equal in every numeric field and in the
task-category mapping. -/
def SameStats [DecidableEq K] (a b : MutableStateUpdateSessionStats K) : Prop :=
  numericFields a = numericFields b ∧ SameMap a.TaskCountByCategory b.TaskCountByCategory

/-- Sum of two optional counts; an absent count adds nothing. -/
def addCount : Option GoInt → Option GoInt → Option GoInt
  | none, b => b
  | a, none => a
  | some a, some b => some (a + b)

end SessionPredicates

/-- The partial statistics of a conflict-resolve request that are present, as
the spec lists them: those of the reset snapshot, of the new snapshot if there
is one and of the current mutation if there is one. -/
def presentPartialStats {K T : Type} [DecidableEq K]
    (req : InternalConflictResolveWorkflowExecutionRequest K T) :
    Option (List (MutableStateUpdateSessionStats K)) := do
  let reset ← computeWorkflowSnapshotStats req.ResetWorkflowSnapshot
  let new ← match req.NewWorkflowSnapshot with
    | some snapshot => (computeWorkflowSnapshotStats snapshot).map fun s => [s]
    | none => some []
  let current ← match req.CurrentWorkflowMutation with
    | some mutation => (computeWorkflowMutationStats mutation).map fun s => [s]
    | none => some []
  pure (reset :: new ++ current)

/-! ## Concrete inputs -/

section Examples

/-- Execution descriptor with identifiers of lengths 2, 1, 1 and 0. -/
def exampleExecutionInfo : InternalWorkflowExecutionInfo where
  WorkflowID := [119, 102]
  TaskList := [116]
  WorkflowTypeName := [121]
  ParentWorkflowID := []

/-- Activity with an identifier of `n` bytes, no events and no details. -/
def exampleActivity (n : Nat) : InternalActivityInfo where
  ScheduledEvent := none
  StartedEvent := none
  ActivityID := List.replicate n 97
  Details := []

def exampleState : InternalWorkflowMutableState where
  ExecutionInfo := some exampleExecutionInfo
  ActivityInfos := [some (exampleActivity 2),
    some { ScheduledEvent := some ⟨[1, 2, 3]⟩, StartedEvent := none, ActivityID := [97],
           Details := [7] }]
  TimerInfos := [some ⟨[116, 49]⟩]
  ChildExecutionInfos := [some ⟨7, some ⟨[1, 2]⟩, [99, 49], none⟩]
  RequestCancelInfos := [some {}, some {}]
  SignalInfos := [some ⟨[115], [1], []⟩]
  BufferedEvents := [some ⟨[]⟩, some ⟨[9, 9, 9, 9]⟩]

def exampleResponse : InternalGetWorkflowExecutionResponse where
  State := some exampleState

/-- Map with the single entry `k ↦ v`. -/
def singletonMap {K V : Type} (k : K) (v : V) : GoMap K V := AList.singleton k v

/-- Snapshot with one activity of identifier length `n` and the given tasks. -/
def exampleSnapshot (n : Nat) (tasks : GoMap String (List Nat)) :
    InternalWorkflowSnapshot String Nat where
  ExecutionInfo := some exampleExecutionInfo
  ActivityInfos := [some (exampleActivity n)]
  TimerInfos := [some ⟨[116, 49]⟩]
  ChildExecutionInfos := []
  RequestCancelInfos := []
  SignalInfos := []
  TasksByCategory := tasks

/-- Mutation with one upserted activity of identifier length `n`, two deleted
timers, a buffered event of 3 bytes and the given tasks. -/
def exampleMutation (n : Nat) (tasks : GoMap String (List Nat)) :
    InternalWorkflowMutation String Nat where
  ExecutionInfo := some exampleExecutionInfo
  UpsertActivityInfos := [some (exampleActivity n)]
  DeleteActivityInfos := []
  UpsertTimerInfos := []
  DeleteTimerInfos := [[116, 49], [116, 50]]
  UpsertChildExecutionInfos := []
  DeleteChildExecutionInfos := []
  UpsertRequestCancelInfos := []
  DeleteRequestCancelInfos := []
  UpsertSignalInfos := []
  DeleteSignalInfos := []
  NewBufferedEvents := some ⟨[1, 2, 3]⟩
  TasksByCategory := tasks

/-- Tasks `{A: 2 tasks}`. -/
def tasksA2 : GoMap String (List Nat) := singletonMap "A" [1, 2]

/-- Tasks `{A: 1 task, B: 3 tasks}`. -/
def tasksA1B3 : GoMap String (List Nat) :=
  AList.insert "B" [4, 5, 6] (singletonMap "A" [3])

def exampleUpdateRequest : InternalUpdateWorkflowExecutionRequest String Nat where
  UpdateWorkflowMutation := exampleMutation 10 tasksA2
  NewWorkflowSnapshot := some (exampleSnapshot 5 tasksA1B3)

def exampleCreateRequest : InternalCreateWorkflowExecutionRequest String Nat where
  NewWorkflowSnapshot := exampleSnapshot 5 tasksA1B3

def exampleConflictResolveRequest :
    InternalConflictResolveWorkflowExecutionRequest String Nat where
  ResetWorkflowSnapshot := exampleSnapshot 2 tasksA2
  NewWorkflowSnapshot := some (exampleSnapshot 5 tasksA1B3)
  CurrentWorkflowMutation := none

def exampleConflictResolveRequest3 :
    InternalConflictResolveWorkflowExecutionRequest String Nat where
  ResetWorkflowSnapshot := exampleSnapshot 2 tasksA2
  NewWorkflowSnapshot := some (exampleSnapshot 5 tasksA1B3)
  CurrentWorkflowMutation := some (exampleMutation 10 tasksA2)

/-- Update request without a new snapshot. -/
def exampleUpdateRequestNoSnapshot : InternalUpdateWorkflowExecutionRequest String Nat where
  UpdateWorkflowMutation := exampleMutation 10 tasksA2
  NewWorkflowSnapshot := none

/-- Statistics with total size 6, split over three kinds, and one category. -/
def exampleStatsA : MutableStateUpdateSessionStats String where
  MutableStateSize := 6
  ExecutionInfoSize := 1
  ActivityInfoSize := 2
  TimerInfoSize := 3
  ChildInfoSize := 0
  SignalInfoSize := 0
  BufferedEventsSize := 0
  ActivityInfoCount := 1
  TimerInfoCount := 1
  ChildInfoCount := 0
  SignalInfoCount := 0
  RequestCancelInfoCount := 0
  DeleteActivityInfoCount := 0
  DeleteTimerInfoCount := 2
  DeleteChildInfoCount := 0
  DeleteSignalInfoCount := 0
  DeleteRequestCancelInfoCount := 0
  TaskCountByCategory := singletonMap "A" 2

/-- Statistics with total size 15, split over the other three kinds, and two
categories. -/
def exampleStatsB : MutableStateUpdateSessionStats String where
  MutableStateSize := 15
  ExecutionInfoSize := 0
  ActivityInfoSize := 0
  TimerInfoSize := 0
  ChildInfoSize := 4
  SignalInfoSize := 5
  BufferedEventsSize := 6
  ActivityInfoCount := 0
  TimerInfoCount := 0
  ChildInfoCount := 1
  SignalInfoCount := 1
  RequestCancelInfoCount := 3
  DeleteActivityInfoCount := 1
  DeleteTimerInfoCount := 0
  DeleteChildInfoCount := 0
  DeleteSignalInfoCount := 0
  DeleteRequestCancelInfoCount := 1
  TaskCountByCategory := AList.insert "B" 3 (singletonMap "A" 1)

end Examples


section MoreExamples

/-- Activity with an identifier of 2 bytes, no events and 1 byte of details. -/
def activityWithDetails : InternalActivityInfo where
  ScheduledEvent := none
  StartedEvent := none
  ActivityID := [97, 98]
  Details := [1]

/-- Snapshot with three activities of identifier lengths 2, 3 and 4 without
events; the first one carries 1 byte of details. -/
def detailsSnapshot : InternalWorkflowSnapshot String Nat where
  ExecutionInfo := some exampleExecutionInfo
  ActivityInfos := [some activityWithDetails, some (exampleActivity 3), some (exampleActivity 4)]
  TimerInfos := []
  ChildExecutionInfos := []
  RequestCancelInfos := []
  SignalInfos := []
  TasksByCategory := ∅

/-- Snapshot with three activities of identifier lengths 4, 2 and 3 without
events and without details. -/
def threeActivitiesSnapshot : InternalWorkflowSnapshot String Nat where
  ExecutionInfo := some exampleExecutionInfo
  ActivityInfos := [some (exampleActivity 4), some (exampleActivity 2), some (exampleActivity 3)]
  TimerInfos := []
  ChildExecutionInfos := []
  RequestCancelInfos := []
  SignalInfos := []
  TasksByCategory := ∅

/-- The mutation of `exampleMutation 10 tasksA2` with other delete
collections and other tasks. -/
def exampleMutationOtherDeletes : InternalWorkflowMutation String Nat where
  ExecutionInfo := some exampleExecutionInfo
  UpsertActivityInfos := [some (exampleActivity 10)]
  DeleteActivityInfos := [4, 5, 6]
  UpsertTimerInfos := []
  DeleteTimerInfos := []
  UpsertChildExecutionInfos := []
  DeleteChildExecutionInfos := [1]
  UpsertRequestCancelInfos := []
  DeleteRequestCancelInfos := [2, 3]
  UpsertSignalInfos := []
  DeleteSignalInfos := [8]
  NewBufferedEvents := some ⟨[1, 2, 3]⟩
  TasksByCategory := tasksA1B3

/-- The full state `exampleState` with its activities and its buffered events
met in the other order. -/
def exampleStateReordered : InternalWorkflowMutableState where
  ExecutionInfo := some exampleExecutionInfo
  ActivityInfos := [
    some { ScheduledEvent := some ⟨[1, 2, 3]⟩, StartedEvent := none, ActivityID := [97],
           Details := [7] },
    some (exampleActivity 2)]
  TimerInfos := [some ⟨[116, 49]⟩]
  ChildExecutionInfos := [some ⟨7, some ⟨[1, 2]⟩, [99, 49], none⟩]
  RequestCancelInfos := [some {}, some {}]
  SignalInfos := [some ⟨[115], [1], []⟩]
  BufferedEvents := [some ⟨[9, 9, 9, 9]⟩, some ⟨[]⟩]

/-- Tasks `{A: 1 task, B: 3 tasks}` with the two entries stored in the other
order. -/
def tasksB3A1 : GoMap String (List Nat) :=
  AList.insert "A" [3] (singletonMap "B" [4, 5, 6])

/-- Mutation with two upserted activities, two upserted timers and the given
tasks. -/
def twoActivitiesMutation (n₁ n₂ : Nat) (tasks : GoMap String (List Nat)) :
    InternalWorkflowMutation String Nat where
  ExecutionInfo := some exampleExecutionInfo
  UpsertActivityInfos := [some (exampleActivity n₁), some (exampleActivity n₂)]
  DeleteActivityInfos := [1]
  UpsertTimerInfos := [some ⟨List.replicate n₁ 116⟩, some ⟨List.replicate n₂ 116⟩]
  DeleteTimerInfos := []
  UpsertChildExecutionInfos := []
  DeleteChildExecutionInfos := []
  UpsertRequestCancelInfos := []
  DeleteRequestCancelInfos := []
  UpsertSignalInfos := []
  DeleteSignalInfos := []
  NewBufferedEvents := none
  TasksByCategory := tasks

/-- Snapshot with two activities, two timers and the given tasks. -/
def twoActivitiesSnapshot (n₁ n₂ : Nat) (tasks : GoMap String (List Nat)) :
    InternalWorkflowSnapshot String Nat where
  ExecutionInfo := some exampleExecutionInfo
  ActivityInfos := [some (exampleActivity n₁), some (exampleActivity n₂)]
  TimerInfos := [some ⟨List.replicate n₁ 116⟩, some ⟨List.replicate n₂ 116⟩]
  ChildExecutionInfos := []
  RequestCancelInfos := []
  SignalInfos := []
  TasksByCategory := tasks

/-- Snapshot with the execution descriptor and the collections of
`exampleState`. -/
def exampleStateSnapshot : InternalWorkflowSnapshot String Nat where
  ExecutionInfo := exampleState.ExecutionInfo
  ActivityInfos := exampleState.ActivityInfos
  TimerInfos := exampleState.TimerInfos
  ChildExecutionInfos := exampleState.ChildExecutionInfos
  RequestCancelInfos := exampleState.RequestCancelInfos
  SignalInfos := exampleState.SignalInfos
  TasksByCategory := tasksA2

/-- Statistics whose total size, execution-descriptor size and count for
category `A` are the largest Go `int`, `2^63 - 1`. -/
def exampleStatsMax : MutableStateUpdateSessionStats String where
  MutableStateSize := 9223372036854775807
  ExecutionInfoSize := 9223372036854775807
  ActivityInfoSize := 0
  TimerInfoSize := 0
  ChildInfoSize := 0
  SignalInfoSize := 0
  BufferedEventsSize := 0
  ActivityInfoCount := 0
  TimerInfoCount := 0
  ChildInfoCount := 0
  SignalInfoCount := 0
  RequestCancelInfoCount := 0
  DeleteActivityInfoCount := 0
  DeleteTimerInfoCount := 0
  DeleteChildInfoCount := 0
  DeleteSignalInfoCount := 0
  DeleteRequestCancelInfoCount := 0
  TaskCountByCategory := singletonMap "A" 9223372036854775807

/-- Statistics whose total size, execution-descriptor size and count for
category `A` are 1. -/
def exampleStatsOne : MutableStateUpdateSessionStats String where
  MutableStateSize := 1
  ExecutionInfoSize := 1
  ActivityInfoSize := 0
  TimerInfoSize := 0
  ChildInfoSize := 0
  SignalInfoSize := 0
  BufferedEventsSize := 0
  ActivityInfoCount := 0
  TimerInfoCount := 0
  ChildInfoCount := 0
  SignalInfoCount := 0
  RequestCancelInfoCount := 0
  DeleteActivityInfoCount := 0
  DeleteTimerInfoCount := 0
  DeleteChildInfoCount := 0
  DeleteSignalInfoCount := 0
  DeleteRequestCancelInfoCount := 0
  TaskCountByCategory := singletonMap "A" 1

end MoreExamples

/-! ## Vocabulary of the remaining properties -/

/-- Sum of the sizes that the rule `f` gives to the entries of a collection. -/
def sizeSum {α : Type} (f : Option α → Option GoInt) (xs : List (Option α)) : GoInt :=
  (xs.map fun x => (f x).getD 0).sum

/-- Total size and the six per-kind sizes of update-session statistics. -/
def sizeFields {K : Type} (s : MutableStateUpdateSessionStats K) : List GoInt :=
  [s.MutableStateSize, s.ExecutionInfoSize, s.ActivityInfoSize, s.TimerInfoSize,
   s.ChildInfoSize, s.SignalInfoSize, s.BufferedEventsSize]

/-- The thirteen numeric fields of full-state statistics, in the order of the
declaration. -/
def fullStateFields (s : MutableStateStats) : List GoInt :=
  [s.MutableStateSize, s.ExecutionInfoSize, s.ActivityInfoSize, s.TimerInfoSize,
   s.ChildInfoSize, s.SignalInfoSize, s.BufferedEventsSize,
   s.ActivityInfoCount, s.TimerInfoCount, s.ChildInfoCount, s.SignalInfoCount,
   s.RequestCancelInfoCount, s.BufferedEventsCount]

/-- Two mutations with the same execution descriptor, the same five upsert
collections and the same new buffered event; delete collections and tasks are
free. -/
def SameSizedContent {K T : Type} (m₁ m₂ : InternalWorkflowMutation K T) : Prop :=
  m₁.ExecutionInfo = m₂.ExecutionInfo ∧
    m₁.UpsertActivityInfos = m₂.UpsertActivityInfos ∧
    m₁.UpsertTimerInfos = m₂.UpsertTimerInfos ∧
    m₁.UpsertChildExecutionInfos = m₂.UpsertChildExecutionInfos ∧
    m₁.UpsertSignalInfos = m₂.UpsertSignalInfos ∧
    m₁.UpsertRequestCancelInfos = m₂.UpsertRequestCancelInfos ∧
    m₁.NewBufferedEvents = m₂.NewBufferedEvents

instance {K T : Type} (m₁ m₂ : InternalWorkflowMutation K T) :
    Decidable (SameSizedContent m₁ m₂) := by
  unfold SameSizedContent; infer_instance

/-- The second full state is the first one with the entries of its
collections met in another order. -/
def ReorderedState (s₁ s₂ : InternalWorkflowMutableState) : Prop :=
  s₁.ExecutionInfo = s₂.ExecutionInfo ∧
    s₁.ActivityInfos.Perm s₂.ActivityInfos ∧
    s₁.TimerInfos.Perm s₂.TimerInfos ∧
    s₁.ChildExecutionInfos.Perm s₂.ChildExecutionInfos ∧
    s₁.RequestCancelInfos.Perm s₂.RequestCancelInfos ∧
    s₁.SignalInfos.Perm s₂.SignalInfos ∧
    s₁.BufferedEvents.Perm s₂.BufferedEvents

/-- The second mutation is the first one with the entries of its collections,
the task map included, met in another order. -/
def ReorderedMutation {K T : Type} (m₁ m₂ : InternalWorkflowMutation K T) : Prop :=
  m₁.ExecutionInfo = m₂.ExecutionInfo ∧
    m₁.UpsertActivityInfos.Perm m₂.UpsertActivityInfos ∧
    m₁.DeleteActivityInfos.Perm m₂.DeleteActivityInfos ∧
    m₁.UpsertTimerInfos.Perm m₂.UpsertTimerInfos ∧
    m₁.DeleteTimerInfos.Perm m₂.DeleteTimerInfos ∧
    m₁.UpsertChildExecutionInfos.Perm m₂.UpsertChildExecutionInfos ∧
    m₁.DeleteChildExecutionInfos.Perm m₂.DeleteChildExecutionInfos ∧
    m₁.UpsertRequestCancelInfos.Perm m₂.UpsertRequestCancelInfos ∧
    m₁.DeleteRequestCancelInfos.Perm m₂.DeleteRequestCancelInfos ∧
    m₁.UpsertSignalInfos.Perm m₂.UpsertSignalInfos ∧
    m₁.DeleteSignalInfos.Perm m₂.DeleteSignalInfos ∧
    m₁.NewBufferedEvents = m₂.NewBufferedEvents ∧
    m₁.TasksByCategory.entries.Perm m₂.TasksByCategory.entries

/-- The second snapshot is the first one with the entries of its collections,
the task map included, met in another order. -/
def ReorderedSnapshot {K T : Type} (s₁ s₂ : InternalWorkflowSnapshot K T) : Prop :=
  s₁.ExecutionInfo = s₂.ExecutionInfo ∧
    s₁.ActivityInfos.Perm s₂.ActivityInfos ∧
    s₁.TimerInfos.Perm s₂.TimerInfos ∧
    s₁.ChildExecutionInfos.Perm s₂.ChildExecutionInfos ∧
    s₁.RequestCancelInfos.Perm s₂.RequestCancelInfos ∧
    s₁.SignalInfos.Perm s₂.SignalInfos ∧
    s₁.TasksByCategory.entries.Perm s₂.TasksByCategory.entries

/-- Two results of a session rule that are both a failure, or both statistics
equal in every numeric field and in the task-category mapping. -/
def SameResult {K : Type} [DecidableEq K] :
    Option (MutableStateUpdateSessionStats K) → Option (MutableStateUpdateSessionStats K) → Prop
  | some a, some b => SameStats a b
  | none, none => True
  | _, _ => False

/-- A full state and a snapshot with the same execution descriptor and the
same activity, timer, child-execution, signal and request-cancel collections. -/
def SharedContent {K T : Type} (state : InternalWorkflowMutableState)
    (snapshot : InternalWorkflowSnapshot K T) : Prop :=
  state.ExecutionInfo = snapshot.ExecutionInfo ∧
    state.ActivityInfos = snapshot.ActivityInfos ∧
    state.TimerInfos = snapshot.TimerInfos ∧
    state.ChildExecutionInfos = snapshot.ChildExecutionInfos ∧
    state.SignalInfos = snapshot.SignalInfos ∧
    state.RequestCancelInfos = snapshot.RequestCancelInfos

/-! ## Exact sizes

What the code adds up, added up in the natural numbers: the spec-side
measure against which the range of Go `int` is compared. -/

section ExactSizes

variable {K T : Type}

/-- The bound of Go `int`: `2^63`. -/
def intLimit : Nat := 9223372036854775808

/-- Bytes of the payload of an optional event; 0 without the event. -/
def eventBytes (ev : Option DataBlob) : Nat :=
  match ev with
  | some e => e.Data.length
  | none => 0

/-- Bytes of the four identifying strings of an execution descriptor. -/
def executionInfoBytes (executionInfo : Option InternalWorkflowExecutionInfo) : Nat :=
  match executionInfo with
  | some e =>
    e.WorkflowID.length + e.TaskList.length + e.WorkflowTypeName.length +
      e.ParentWorkflowID.length
  | none => 0

/-- Bytes of an activity: identifier, the two event payloads and details. -/
def activityBytes (ai : Option InternalActivityInfo) : Nat :=
  match ai with
  | some a =>
    a.ActivityID.length + eventBytes a.ScheduledEvent + eventBytes a.StartedEvent +
      a.Details.length
  | none => 0

/-- Bytes of a timer: its identifier. -/
def timerBytes (ti : Option TimerInfo) : Nat :=
  match ti with
  | some t => t.TimerID.length
  | none => 0

/-- Bytes of a child execution: the two event payloads. -/
def childBytes (ci : Option InternalChildExecutionInfo) : Nat :=
  match ci with
  | some c => eventBytes c.InitiatedEvent + eventBytes c.StartedEvent
  | none => 0

/-- Bytes of a signal: name, input and control. -/
def signalBytes (si : Option SignalInfo) : Nat :=
  match si with
  | some s => s.SignalName.length + s.Input.length + s.Control.length
  | none => 0

/-- Bytes of a collection: the bytes of its entries added up. -/
def bytesOf {α : Type} (f : Option α → Nat) (xs : List (Option α)) : Nat :=
  (xs.map f).sum

/-- Number of tasks of a task map, over all categories. -/
def taskEntries (tasks : GoMap K (List T)) : Nat :=
  (tasks.entries.map fun e => e.2.length).sum

/-- Bytes and entries that the full-state rule counts, added up exactly. -/
def stateWeight (s : InternalWorkflowMutableState) : Nat :=
  executionInfoBytes s.ExecutionInfo + bytesOf activityBytes s.ActivityInfos +
    bytesOf timerBytes s.TimerInfos + bytesOf childBytes s.ChildExecutionInfos +
    bytesOf signalBytes s.SignalInfos + bytesOf eventBytes s.BufferedEvents +
    s.ActivityInfos.length + s.TimerInfos.length + s.ChildExecutionInfos.length +
    s.SignalInfos.length + s.RequestCancelInfos.length + s.BufferedEvents.length

/-- Bytes and entries that the snapshot rule counts, added up exactly. -/
def snapshotWeight (s : InternalWorkflowSnapshot K T) : Nat :=
  executionInfoBytes s.ExecutionInfo + bytesOf activityBytes s.ActivityInfos +
    bytesOf timerBytes s.TimerInfos + bytesOf childBytes s.ChildExecutionInfos +
    bytesOf signalBytes s.SignalInfos +
    s.ActivityInfos.length + s.TimerInfos.length + s.ChildExecutionInfos.length +
    s.SignalInfos.length + s.RequestCancelInfos.length + taskEntries s.TasksByCategory

/-- Bytes and entries that the mutation rule counts, added up exactly. -/
def mutationWeight (m : InternalWorkflowMutation K T) : Nat :=
  executionInfoBytes m.ExecutionInfo + bytesOf activityBytes m.UpsertActivityInfos +
    bytesOf timerBytes m.UpsertTimerInfos + bytesOf childBytes m.UpsertChildExecutionInfos +
    bytesOf signalBytes m.UpsertSignalInfos + eventBytes m.NewBufferedEvents +
    m.UpsertActivityInfos.length + m.UpsertTimerInfos.length +
    m.UpsertChildExecutionInfos.length + m.UpsertSignalInfos.length +
    m.UpsertRequestCancelInfos.length +
    m.DeleteActivityInfos.length + m.DeleteTimerInfos.length +
    m.DeleteChildExecutionInfos.length + m.DeleteSignalInfos.length +
    m.DeleteRequestCancelInfos.length + taskEntries m.TasksByCategory

/-- Weight of a get response: that of its state. -/
def responseWeight (req : InternalGetWorkflowExecutionResponse) : Nat :=
  match req.State with
  | some s => stateWeight s
  | none => 0

/-- Weight of an update request: its mutation and its new snapshot, if any. -/
def updateRequestWeight (req : InternalUpdateWorkflowExecutionRequest K T) : Nat :=
  mutationWeight req.UpdateWorkflowMutation +
    match req.NewWorkflowSnapshot with
    | some s => snapshotWeight s
    | none => 0

/-- Weight of a create request: its snapshot. -/
def createRequestWeight (req : InternalCreateWorkflowExecutionRequest K T) : Nat :=
  snapshotWeight req.NewWorkflowSnapshot

/-- Weight of a conflict-resolve request: its reset snapshot, its new snapshot
if any and its current mutation if any. -/
def conflictResolveRequestWeight
    (req : InternalConflictResolveWorkflowExecutionRequest K T) : Nat :=
  snapshotWeight req.ResetWorkflowSnapshot +
    (match req.NewWorkflowSnapshot with
      | some s => snapshotWeight s
      | none => 0) +
    match req.CurrentWorkflowMutation with
    | some m => mutationWeight m
    | none => 0

/-- Every numeric field and every task count stands for an integer that is at
least 0. -/
def NonNegative [DecidableEq K] (s : MutableStateUpdateSessionStats K) : Prop :=
  (∀ x ∈ numericFields s, 0 ≤ x.val) ∧ ∀ k v, taskCount s k = some v → 0 ≤ v.val

/-- Every numeric field and every task count stands for an integer between 0
and `w`. -/
def BoundedBy [DecidableEq K] (s : MutableStateUpdateSessionStats K) (w : Nat) : Prop :=
  (∀ x ∈ numericFields s, 0 ≤ x.val ∧ x.val ≤ w) ∧
    ∀ k v, taskCount s k = some v → 0 ≤ v.val ∧ v.val ≤ w

/-- Activity without identifier and events whose details payload has `size`
bytes. -/
def largeActivity (size : Nat) : InternalActivityInfo where
  ScheduledEvent := none
  StartedEvent := none
  ActivityID := []
  Details := List.replicate size 0

/-- Snapshot whose activity collection holds `count` times the pointer to one
activity with `size` bytes of details. -/
def repeatedActivitySnapshot (count size : Nat) : InternalWorkflowSnapshot String Nat where
  ExecutionInfo := some ⟨[], [], [], []⟩
  ActivityInfos := List.replicate count (some (largeActivity size))
  TimerInfos := []
  ChildExecutionInfos := []
  RequestCancelInfos := []
  SignalInfos := []
  TasksByCategory := ∅

/-- The smallest Go `int`, `-2^63`. -/
def minInt : GoInt := GoInt.ofInt (-9223372036854775808)

end ExactSizes

/-! ## The counting loops -/

theorem len_nil {α : Type} : len ([] : List α) = 0 := by
  simp only [len, List.length_nil, Nat.cast_zero]

theorem len_cons {α : Type} (a : α) (l : List α) : len (a :: l) = len l + 1 := by
  simp only [len, List.length_cons, Nat.cast_succ]

theorem foldlM_rangeCountSize {α : Type} (f : Option α → Option GoInt)
    (hf : ∀ x, (f (some x)).isSome = true) (xs : List (Option α)) (h : noNil xs)
    (acc : GoInt × GoInt) :
    xs.foldlM (fun (acc : GoInt × GoInt) x => do
      let size ← f x
      pure (acc.1 + 1, acc.2 + size)) acc
      = some (acc.1 + len xs, acc.2 + (xs.map (fun x => (f x).getD 0)).sum) := by
  induction xs generalizing acc with
  | nil =>
    simp only [List.foldlM_nil, len_nil, add_zero, List.map_nil, List.sum_nil]
    rfl
  | cons x xs ih =>
    have hx : x.isSome = true := h x (List.mem_cons_self _ _)
    have hxs : noNil xs := fun y hy => h y (List.mem_cons_of_mem _ hy)
    obtain ⟨a, rfl⟩ := Option.isSome_iff_exists.1 hx
    obtain ⟨v, hv⟩ := Option.isSome_iff_exists.1 (hf a)
    rw [List.foldlM_cons, hv]
    show List.foldlM _ (acc.1 + 1, acc.2 + v) xs = _
    rw [ih hxs]
    simp only [len_cons, List.map_cons, List.sum_cons, hv, Option.getD_some, Option.some.injEq,
      Prod.mk.injEq]
    constructor <;> abel

theorem rangeCountSize_eq {α : Type} (f : Option α → Option GoInt)
    (hf : ∀ x, (f (some x)).isSome = true) (xs : List (Option α)) (h : noNil xs) :
    rangeCountSize f xs = some (len xs, (xs.map (fun x => (f x).getD 0)).sum) := by
  unfold rangeCountSize
  rw [foldlM_rangeCountSize f hf xs h]
  simp only [zero_add]

theorem computeActivityInfoSize_some (x : InternalActivityInfo) :
    (computeActivityInfoSize (some x)).isSome = true := by
  simp [computeActivityInfoSize]

theorem computeTimerInfoSize_some (x : TimerInfo) :
    (computeTimerInfoSize (some x)).isSome = true := by
  simp [computeTimerInfoSize]

theorem computeChildInfoSize_some (x : InternalChildExecutionInfo) :
    (computeChildInfoSize (some x)).isSome = true := by
  simp [computeChildInfoSize]

theorem computeSignalInfoSize_some (x : SignalInfo) :
    (computeSignalInfoSize (some x)).isSome = true := by
  simp [computeSignalInfoSize]

theorem bufferedEventSize_some (x : DataBlob) :
    (bufferedEventSize (some x)).isSome = true := by
  simp [bufferedEventSize]

/-! ## Go arithmetic and the integers -/

theorem GoInt.eq_of_val_eq {a b : GoInt} (h : a.val = b.val) : a = b := by
  cases a; cases b; simp only [GoInt.mk.injEq]; exact h

theorem val_add (a b : GoInt) : (a + b).val = wrap (a.val + b.val) := rfl

theorem val_natCast (n : ℕ) : (n : GoInt).val = wrap n := rfl

theorem val_len {α : Type} (l : List α) : (len l).val = wrap l.length := rfl

theorem val_zero : (0 : GoInt).val = 0 := by
  show wrap 0 = 0
  unfold wrap; omega

theorem val_one : (1 : GoInt).val = 1 := by
  show wrap 1 = 1
  unfold wrap; omega

/-- An integer of the range of Go `int` wraps to itself. -/
theorem wrap_of_inRange (x : Int)
    (h : -9223372036854775808 ≤ x ∧ x < 9223372036854775808) : wrap x = x := by
  unfold wrap; omega

theorem wrap_val (a : GoInt) : wrap a.val = a.val := wrap_of_inRange _ a.inRange

theorem wrap_add_wrap (x y : Int) : wrap (x + wrap y) = wrap (x + y) := by
  unfold wrap; omega

/-- The Go sum of a list stands for the integer sum, wrapped. -/
theorem val_sum (l : List GoInt) : l.sum.val = wrap (l.map GoInt.val).sum := by
  induction l with
  | nil => simp only [List.sum_nil, List.map_nil, val_zero]; unfold wrap; omega
  | cons a l ih => rw [List.sum_cons, val_add, ih, wrap_add_wrap, List.map_cons, List.sum_cons]

/-- The Go sum of two values that stand for natural numbers stands for their
sum when that sum is below `2^63`. -/
theorem val_add_of_lt {a b : GoInt} {n m : ℕ} (ha : a.val = n) (hb : b.val = m)
    (h : n + m < 9223372036854775808) : (a + b).val = (n + m : ℕ) := by
  rw [val_add, ha, hb]; unfold wrap; omega

theorem val_len_of_lt {α : Type} (l : List α) (h : l.length < 9223372036854775808) :
    (len l).val = l.length := by
  rw [val_len]; unfold wrap; omega

/-! ## The merge -/

section MergeLemmas

variable {K : Type} [DecidableEq K]

theorem addCount_none_right (a : Option GoInt) : addCount a none = a := by
  cases a <;> rfl

theorem addCount_none_left (b : Option GoInt) : addCount none b = b := by
  cases b <;> rfl

theorem addCount_comm (a b : Option GoInt) : addCount a b = addCount b a := by
  cases a <;> cases b <;> simp [addCount, add_comm]

theorem addCount_assoc (a b c : Option GoInt) :
    addCount (addCount a b) c = addCount a (addCount b c) := by
  cases a <;> cases b <;> cases c <;> simp [addCount, add_assoc]

theorem lookup_addTaskCount (m : GoMap K GoInt) (a : K) (v : GoInt) (k : K) :
    AList.lookup k (addTaskCount m a v) =
      if k = a then some ((AList.lookup a m).getD 0 + v) else AList.lookup k m := by
  unfold addTaskCount
  by_cases h : k = a
  · subst h; simp
  · simp [h, AList.lookup_insert_ne h]

theorem lookup_foldl_addTaskCount (l : List (Sigma fun _ : K => GoInt)) (nd : l.NodupKeys)
    (r : GoMap K GoInt) (k : K) :
    AList.lookup k (l.foldl (fun r a => addTaskCount r a.1 a.2) r) =
      addCount (AList.lookup k r) (List.dlookup k l) := by
  induction l generalizing r with
  | nil => simp [addCount_none_right]
  | cons e l ih =>
    obtain ⟨a, b⟩ := e
    rw [List.nodupKeys_cons] at nd
    rw [List.foldl_cons, ih nd.2, lookup_addTaskCount]
    by_cases h : k = a
    · subst h
      have hn : List.dlookup k l = none := List.dlookup_eq_none.2 nd.1
      rw [hn, List.dlookup_cons_eq]
      cases hr : AList.lookup k r <;> simp [addCount]
    · rw [if_neg h, List.dlookup_cons_ne _ _ h]

theorem taskCount_mergeStep (r s : MutableStateUpdateSessionStats K) (k : K) :
    taskCount (mergeStep r s) k = addCount (taskCount r k) (taskCount s k) := by
  unfold taskCount mergeStep AList.foldl
  exact lookup_foldl_addTaskCount _ s.TaskCountByCategory.nodupKeys _ k

theorem taskCount_foldl_mergeStep (l : List (MutableStateUpdateSessionStats K))
    (r : MutableStateUpdateSessionStats K) (k : K) :
    taskCount (l.foldl mergeStep r) k =
      addCount (taskCount r k) ((l.map fun s => taskCount s k).foldr addCount none) := by
  induction l generalizing r with
  | nil => simp [addCount_none_right]
  | cons s l ih =>
    rw [List.foldl_cons, ih, taskCount_mergeStep, List.map_cons, List.foldr_cons, addCount_assoc]

theorem foldr_addCount (l : List (Option GoInt)) :
    l.foldr addCount none =
      if ∃ c ∈ l, c.isSome = true then some (l.map fun c => c.getD 0).sum else none := by
  induction l with
  | nil => simp
  | cons c l ih =>
    rw [List.foldr_cons, ih]
    cases c with
    | none =>
      by_cases h : ∃ c ∈ l, c.isSome = true
      · have h2 : ∃ c ∈ none :: l, c.isSome = true := by
          obtain ⟨c, hc, hs⟩ := h; exact ⟨c, List.mem_cons_of_mem _ hc, hs⟩
        simp only [if_pos h, if_pos h2]; simp [addCount]
      · have h2 : ¬ ∃ c ∈ none :: l, c.isSome = true := by
          rintro ⟨c, hc, hs⟩
          rcases List.mem_cons.1 hc with rfl | hc
          · simp at hs
          · exact h ⟨c, hc, hs⟩
        simp only [if_neg h, if_neg h2]; simp [addCount]
    | some v =>
      have h2 : ∃ c ∈ some v :: l, c.isSome = true := ⟨some v, List.mem_cons_self _ _, rfl⟩
      rw [if_pos h2]
      by_cases h : ∃ c ∈ l, c.isSome = true
      · simp only [if_pos h]; simp [addCount]
      · simp only [if_neg h]
        have hz : (l.map fun c => c.getD 0).sum = 0 := by
          apply List.sum_eq_zero
          intro x hx
          obtain ⟨c, hc, rfl⟩ := List.mem_map.1 hx
          cases c with
          | none => rfl
          | some w => exact absurd ⟨some w, hc, rfl⟩ h
        simp [addCount, hz]

theorem taskCount_zeroStats (k : K) :
    taskCount (zeroStats : MutableStateUpdateSessionStats K) k = none := by
  simp [taskCount, zeroStats]

/-- Count under `k` after the merge: the counts of the elements, added up. -/
theorem taskCount_merge (l : List (MutableStateUpdateSessionStats K)) (k : K) :
    taskCount (mergeMutableStateUpdateSessionStats l) k =
      (l.map fun s => taskCount s k).foldr addCount none := by
  unfold mergeMutableStateUpdateSessionStats
  rw [taskCount_foldl_mergeStep, taskCount_zeroStats, addCount_none_left]

/-- A field that `mergeStep` adds up is, after the loop, the start value plus
the sum of the field over the sequence. -/
theorem field_foldl_mergeStep (f : MutableStateUpdateSessionStats K → GoInt)
    (hf : ∀ r s, f (mergeStep r s) = f r + f s)
    (l : List (MutableStateUpdateSessionStats K)) (r : MutableStateUpdateSessionStats K) :
    f (l.foldl mergeStep r) = f r + (l.map f).sum := by
  induction l generalizing r with
  | nil => simp
  | cons s l ih => rw [List.foldl_cons, ih, hf, List.map_cons, List.sum_cons, add_assoc]

theorem field_merge (f : MutableStateUpdateSessionStats K → GoInt)
    (hf : ∀ r s, f (mergeStep r s) = f r + f s) (h0 : f zeroStats = 0)
    (l : List (MutableStateUpdateSessionStats K)) :
    f (mergeMutableStateUpdateSessionStats l) = (l.map f).sum := by
  unfold mergeMutableStateUpdateSessionStats
  rw [field_foldl_mergeStep f hf, h0, zero_add]

end MergeLemmas

/-! ## Results of the two session rules on well-formed inputs -/

section SessionLemmas

variable {K T : Type} [DecidableEq K]

theorem computeWorkflowSnapshotStats_spec (req : InternalWorkflowSnapshot K T)
    (h : WellFormedSnapshot req) :
    ∃ s, computeWorkflowSnapshotStats req = some s ∧ TotalSizeInvariant s ∧
      s.TaskCountByCategory = computeTaskCountByCategory req.TasksByCategory := by
  obtain ⟨he, ha, ht, hc, hs⟩ := h
  obtain ⟨e, he⟩ := Option.isSome_iff_exists.1 he
  simp only [computeWorkflowSnapshotStats, he, computeExecutionInfoSize,
    rangeCountSize_eq _ computeActivityInfoSize_some _ ha,
    rangeCountSize_eq _ computeTimerInfoSize_some _ ht,
    rangeCountSize_eq _ computeChildInfoSize_some _ hc,
    rangeCountSize_eq _ computeSignalInfoSize_some _ hs,
    Option.bind_eq_bind, Option.some_bind, Option.pure_def]
  refine ⟨_, rfl, ?_, rfl⟩
  simp [TotalSizeInvariant]

theorem computeWorkflowMutationStats_spec (req : InternalWorkflowMutation K T)
    (h : WellFormedMutation req) :
    ∃ s, computeWorkflowMutationStats req = some s ∧ TotalSizeInvariant s ∧
      s.TaskCountByCategory = computeTaskCountByCategory req.TasksByCategory := by
  obtain ⟨he, ha, ht, hc, hs⟩ := h
  obtain ⟨e, he⟩ := Option.isSome_iff_exists.1 he
  simp only [computeWorkflowMutationStats, he, computeExecutionInfoSize,
    rangeCountSize_eq _ computeActivityInfoSize_some _ ha,
    rangeCountSize_eq _ computeTimerInfoSize_some _ ht,
    rangeCountSize_eq _ computeChildInfoSize_some _ hc,
    rangeCountSize_eq _ computeSignalInfoSize_some _ hs,
    Option.bind_eq_bind, Option.some_bind, Option.pure_def]
  exact ⟨_, rfl, rfl, rfl⟩

omit [DecidableEq K] in
theorem totalSizeInvariant_zeroStats :
    TotalSizeInvariant (zeroStats : MutableStateUpdateSessionStats K) := by
  simp [TotalSizeInvariant, zeroStats]

theorem totalSizeInvariant_mergeStep (r s : MutableStateUpdateSessionStats K)
    (hr : TotalSizeInvariant r) (hs : TotalSizeInvariant s) :
    TotalSizeInvariant (mergeStep r s) := by
  unfold TotalSizeInvariant at *
  simp only [mergeStep]
  rw [hr, hs]; abel

theorem totalSizeInvariant_foldl (l : List (MutableStateUpdateSessionStats K))
    (r : MutableStateUpdateSessionStats K) (hr : TotalSizeInvariant r)
    (hl : ∀ s ∈ l, TotalSizeInvariant s) : TotalSizeInvariant (l.foldl mergeStep r) := by
  induction l generalizing r with
  | nil => exact hr
  | cons s l ih =>
    exact ih _ (totalSizeInvariant_mergeStep r s hr (hl s (List.mem_cons_self _ _)))
      (fun x hx => hl x (List.mem_cons_of_mem _ hx))

theorem totalSizeInvariant_merge (l : List (MutableStateUpdateSessionStats K))
    (hl : ∀ s ∈ l, TotalSizeInvariant s) :
    TotalSizeInvariant (mergeMutableStateUpdateSessionStats l) :=
  totalSizeInvariant_foldl l zeroStats totalSizeInvariant_zeroStats hl

theorem totalSizeInvariant_merge_pair (a b : MutableStateUpdateSessionStats K)
    (ha : TotalSizeInvariant a) (hb : TotalSizeInvariant b) :
    TotalSizeInvariant (mergeMutableStateUpdateSessionStats [a, b]) :=
  totalSizeInvariant_merge [a, b] (by
    intro s hs
    rcases List.mem_cons.1 hs with rfl | hs
    · exact ha
    · rcases List.mem_cons.1 hs with rfl | hs
      · exact hb
      · cases hs)

end SessionLemmas

/-! ## Equality of statistics values -/

section SameStatsLemmas

variable {K : Type} [DecidableEq K]

theorem sameStats_iff (a b : MutableStateUpdateSessionStats K) :
    SameStats a b ↔ numericFields a = numericFields b ∧ ∀ k, taskCount a k = taskCount b k :=
  Iff.rfl

theorem SameStats.refl (a : MutableStateUpdateSessionStats K) : SameStats a a :=
  ⟨rfl, fun _ => rfl⟩

theorem SameStats.symm {a b : MutableStateUpdateSessionStats K} (h : SameStats a b) :
    SameStats b a :=
  ⟨h.1.symm, fun k => (h.2 k).symm⟩

theorem SameStats.trans {a b c : MutableStateUpdateSessionStats K} (h₁ : SameStats a b)
    (h₂ : SameStats b c) : SameStats a c :=
  ⟨h₁.1.trans h₂.1, fun k => (h₁.2 k).trans (h₂.2 k)⟩

theorem numericFields_merge_perm {l₁ l₂ : List (MutableStateUpdateSessionStats K)}
    (hp : l₁.Perm l₂) :
    numericFields (mergeMutableStateUpdateSessionStats l₁) =
      numericFields (mergeMutableStateUpdateSessionStats l₂) := by
  have key : ∀ f : MutableStateUpdateSessionStats K → GoInt,
      (∀ r s, f (mergeStep r s) = f r + f s) → f zeroStats = 0 →
      f (mergeMutableStateUpdateSessionStats l₁) = f (mergeMutableStateUpdateSessionStats l₂) :=
    fun f hf h0 => by rw [field_merge f hf h0, field_merge f hf h0, (hp.map f).sum_eq]
  simp only [numericFields, List.cons.injEq, and_true]
  refine ⟨?_, ?_, ?_, ?_, ?_, ?_, ?_, ?_, ?_, ?_, ?_, ?_, ?_, ?_, ?_, ?_, ?_⟩
  iterate 17 exact key _ (fun _ _ => rfl) rfl

theorem taskCount_merge_perm {l₁ l₂ : List (MutableStateUpdateSessionStats K)}
    (hp : l₁.Perm l₂) (k : K) :
    taskCount (mergeMutableStateUpdateSessionStats l₁) k =
      taskCount (mergeMutableStateUpdateSessionStats l₂) k := by
  have hq : (l₁.map fun s => taskCount s k).Perm (l₂.map fun s => taskCount s k) := hp.map _
  rw [taskCount_merge, taskCount_merge, foldr_addCount, foldr_addCount,
    (hq.map fun c => c.getD 0).sum_eq]
  have he : (∃ c ∈ l₁.map fun s => taskCount s k, c.isSome = true) ↔
      ∃ c ∈ l₂.map fun s => taskCount s k, c.isSome = true :=
    ⟨fun ⟨c, hc, h⟩ => ⟨c, hq.mem_iff.1 hc, h⟩, fun ⟨c, hc, h⟩ => ⟨c, hq.mem_iff.2 hc, h⟩⟩
  by_cases h : ∃ c ∈ l₁.map fun s => taskCount s k, c.isSome = true
  · rw [if_pos h, if_pos (he.1 h)]
  · rw [if_neg h, if_neg (fun h2 => h (he.2 h2))]

theorem sameStats_merge_perm {l₁ l₂ : List (MutableStateUpdateSessionStats K)}
    (hp : l₁.Perm l₂) :
    SameStats (mergeMutableStateUpdateSessionStats l₁) (mergeMutableStateUpdateSessionStats l₂) :=
  ⟨numericFields_merge_perm hp, taskCount_merge_perm hp⟩

theorem sameStats_merge_singleton (a : MutableStateUpdateSessionStats K) :
    SameStats (mergeMutableStateUpdateSessionStats [a]) a := by
  refine ⟨?_, fun k => ?_⟩
  · simp [numericFields, mergeMutableStateUpdateSessionStats, mergeStep, zeroStats]
  · change taskCount _ k = taskCount _ k
    rw [taskCount_merge]
    simp [addCount_none_right]

theorem sameStats_merge_nested_left (a b c : MutableStateUpdateSessionStats K) :
    SameStats (mergeMutableStateUpdateSessionStats [mergeMutableStateUpdateSessionStats [a, b], c])
      (mergeMutableStateUpdateSessionStats [a, b, c]) := by
  refine ⟨?_, fun k => ?_⟩
  · simp [numericFields, mergeMutableStateUpdateSessionStats, mergeStep, zeroStats]
  · change taskCount _ k = taskCount _ k
    simp [taskCount_merge, addCount_none_right, addCount_assoc]

theorem sameStats_merge_nested_right (a b c : MutableStateUpdateSessionStats K) :
    SameStats (mergeMutableStateUpdateSessionStats [a, mergeMutableStateUpdateSessionStats [b, c]])
      (mergeMutableStateUpdateSessionStats [a, b, c]) := by
  refine ⟨?_, fun k => ?_⟩
  · simp [numericFields, mergeMutableStateUpdateSessionStats, mergeStep, zeroStats, add_assoc]
  · change taskCount _ k = taskCount _ k
    simp [taskCount_merge, addCount_none_right]

end SameStatsLemmas

/-! ## Task counts -/

section TaskCountLemmas

variable {K T : Type} [DecidableEq K]

theorem lookup_foldl_setTaskCount (l : List (Sigma fun _ : K => List T)) (nd : l.NodupKeys)
    (r : GoMap K GoInt) (k : K) :
    AList.lookup k (l.foldl (fun r a => setTaskCount r a.1 a.2) r) =
      match List.dlookup k l with
      | some v => some (len v)
      | none => AList.lookup k r := by
  induction l generalizing r with
  | nil => simp
  | cons e l ih =>
    obtain ⟨a, b⟩ := e
    rw [List.nodupKeys_cons] at nd
    rw [List.foldl_cons, ih nd.2]
    by_cases h : k = a
    · subst h
      have hn : List.dlookup k l = none := List.dlookup_eq_none.2 nd.1
      rw [hn, List.dlookup_cons_eq]
      simp [setTaskCount]
    · rw [List.dlookup_cons_ne _ _ h]
      simp [setTaskCount, AList.lookup_insert_ne h]

/-- The count map has the keys of the task map and, under each, the number of
tasks. -/
theorem lookup_computeTaskCountByCategory (tasks : GoMap K (List T)) (k : K) :
    AList.lookup k (computeTaskCountByCategory tasks) = (AList.lookup k tasks).map len := by
  unfold computeTaskCountByCategory AList.foldl
  rw [lookup_foldl_setTaskCount _ tasks.nodupKeys]
  unfold AList.lookup
  cases List.dlookup k tasks.entries <;> simp

end TaskCountLemmas

/-! ## Exact results on well-formed inputs -/

section ExactResults

variable {K T : Type} [DecidableEq K]

theorem rangeCountSize_eq_sizeSum {α : Type} (f : Option α → Option GoInt)
    (hf : ∀ x, (f (some x)).isSome = true) (xs : List (Option α)) (h : noNil xs) :
    rangeCountSize f xs = some (len xs, sizeSum f xs) :=
  rangeCountSize_eq f hf xs h

/-- On non-nil entries the sum of sizes is the sum of `g` over the records. -/
theorem sizeSum_eq_sum {α : Type} (f : Option α → Option GoInt) (g : α → GoInt)
    (hf : ∀ x, f (some x) = some (g x)) (h0 : f none = none) (xs : List (Option α)) :
    sizeSum f xs = (xs.reduceOption.map g).sum := by
  induction xs with
  | nil => rfl
  | cons x xs ih =>
    unfold sizeSum at ih ⊢
    cases x with
    | none => simp [h0, List.reduceOption_cons_of_none, ih]
    | some a => simp [hf, List.reduceOption_cons_of_some, ih]

theorem computeMutableStateStats_eq (state : InternalWorkflowMutableState)
    (h : WellFormedResponse ⟨some state⟩) :
    computeMutableStateStats ⟨some state⟩ = some {
      MutableStateSize :=
        (computeExecutionInfoSize state.ExecutionInfo).getD 0 +
          sizeSum computeActivityInfoSize state.ActivityInfos +
          sizeSum computeTimerInfoSize state.TimerInfos +
          sizeSum computeChildInfoSize state.ChildExecutionInfos +
          sizeSum computeSignalInfoSize state.SignalInfos +
          sizeSum bufferedEventSize state.BufferedEvents
      ExecutionInfoSize := (computeExecutionInfoSize state.ExecutionInfo).getD 0
      ActivityInfoSize := sizeSum computeActivityInfoSize state.ActivityInfos
      TimerInfoSize := sizeSum computeTimerInfoSize state.TimerInfos
      ChildInfoSize := sizeSum computeChildInfoSize state.ChildExecutionInfos
      SignalInfoSize := sizeSum computeSignalInfoSize state.SignalInfos
      BufferedEventsSize := sizeSum bufferedEventSize state.BufferedEvents
      ActivityInfoCount := len state.ActivityInfos
      TimerInfoCount := len state.TimerInfos
      ChildInfoCount := len state.ChildExecutionInfos
      SignalInfoCount := len state.SignalInfos
      RequestCancelInfoCount := len state.RequestCancelInfos
      BufferedEventsCount := len state.BufferedEvents } := by
  obtain ⟨he, ha, ht, hc, hs, hb⟩ := h
  obtain ⟨e, he⟩ := Option.isSome_iff_exists.1 he
  simp only [computeMutableStateStats, he, computeExecutionInfoSize,
    rangeCountSize_eq_sizeSum _ computeActivityInfoSize_some _ ha,
    rangeCountSize_eq_sizeSum _ computeTimerInfoSize_some _ ht,
    rangeCountSize_eq_sizeSum _ computeChildInfoSize_some _ hc,
    rangeCountSize_eq_sizeSum _ computeSignalInfoSize_some _ hs,
    rangeCountSize_eq_sizeSum _ bufferedEventSize_some _ hb,
    Option.bind_eq_bind, Option.some_bind, Option.pure_def, Option.getD_some]

theorem computeWorkflowMutationStats_eq (req : InternalWorkflowMutation K T)
    (h : WellFormedMutation req) :
    computeWorkflowMutationStats req = some {
      MutableStateSize :=
        (computeExecutionInfoSize req.ExecutionInfo).getD 0 +
          sizeSum computeActivityInfoSize req.UpsertActivityInfos +
          sizeSum computeTimerInfoSize req.UpsertTimerInfos +
          sizeSum computeChildInfoSize req.UpsertChildExecutionInfos +
          sizeSum computeSignalInfoSize req.UpsertSignalInfos +
          (req.NewBufferedEvents.map fun ev => len ev.Data).getD 0
      ExecutionInfoSize := (computeExecutionInfoSize req.ExecutionInfo).getD 0
      ActivityInfoSize := sizeSum computeActivityInfoSize req.UpsertActivityInfos
      TimerInfoSize := sizeSum computeTimerInfoSize req.UpsertTimerInfos
      ChildInfoSize := sizeSum computeChildInfoSize req.UpsertChildExecutionInfos
      SignalInfoSize := sizeSum computeSignalInfoSize req.UpsertSignalInfos
      BufferedEventsSize := (req.NewBufferedEvents.map fun ev => len ev.Data).getD 0
      ActivityInfoCount := len req.UpsertActivityInfos
      TimerInfoCount := len req.UpsertTimerInfos
      ChildInfoCount := len req.UpsertChildExecutionInfos
      SignalInfoCount := len req.UpsertSignalInfos
      RequestCancelInfoCount := len req.UpsertRequestCancelInfos
      DeleteActivityInfoCount := len req.DeleteActivityInfos
      DeleteTimerInfoCount := len req.DeleteTimerInfos
      DeleteChildInfoCount := len req.DeleteChildExecutionInfos
      DeleteSignalInfoCount := len req.DeleteSignalInfos
      DeleteRequestCancelInfoCount := len req.DeleteRequestCancelInfos
      TaskCountByCategory := computeTaskCountByCategory req.TasksByCategory } := by
  obtain ⟨he, ha, ht, hc, hs⟩ := h
  obtain ⟨e, he⟩ := Option.isSome_iff_exists.1 he
  simp only [computeWorkflowMutationStats, he, computeExecutionInfoSize,
    rangeCountSize_eq_sizeSum _ computeActivityInfoSize_some _ ha,
    rangeCountSize_eq_sizeSum _ computeTimerInfoSize_some _ ht,
    rangeCountSize_eq_sizeSum _ computeChildInfoSize_some _ hc,
    rangeCountSize_eq_sizeSum _ computeSignalInfoSize_some _ hs,
    Option.bind_eq_bind, Option.some_bind, Option.pure_def, Option.getD_some]
  cases req.NewBufferedEvents <;> rfl

theorem computeWorkflowSnapshotStats_eq (req : InternalWorkflowSnapshot K T)
    (h : WellFormedSnapshot req) :
    computeWorkflowSnapshotStats req = some {
      MutableStateSize :=
        (computeExecutionInfoSize req.ExecutionInfo).getD 0 +
          sizeSum computeActivityInfoSize req.ActivityInfos +
          sizeSum computeTimerInfoSize req.TimerInfos +
          sizeSum computeChildInfoSize req.ChildExecutionInfos +
          sizeSum computeSignalInfoSize req.SignalInfos
      ExecutionInfoSize := (computeExecutionInfoSize req.ExecutionInfo).getD 0
      ActivityInfoSize := sizeSum computeActivityInfoSize req.ActivityInfos
      TimerInfoSize := sizeSum computeTimerInfoSize req.TimerInfos
      ChildInfoSize := sizeSum computeChildInfoSize req.ChildExecutionInfos
      SignalInfoSize := sizeSum computeSignalInfoSize req.SignalInfos
      BufferedEventsSize := 0
      ActivityInfoCount := len req.ActivityInfos
      TimerInfoCount := len req.TimerInfos
      ChildInfoCount := len req.ChildExecutionInfos
      SignalInfoCount := len req.SignalInfos
      RequestCancelInfoCount := len req.RequestCancelInfos
      DeleteActivityInfoCount := 0
      DeleteTimerInfoCount := 0
      DeleteChildInfoCount := 0
      DeleteSignalInfoCount := 0
      DeleteRequestCancelInfoCount := 0
      TaskCountByCategory := computeTaskCountByCategory req.TasksByCategory } := by
  obtain ⟨he, ha, ht, hc, hs⟩ := h
  obtain ⟨e, he⟩ := Option.isSome_iff_exists.1 he
  simp only [computeWorkflowSnapshotStats, he, computeExecutionInfoSize,
    rangeCountSize_eq_sizeSum _ computeActivityInfoSize_some _ ha,
    rangeCountSize_eq_sizeSum _ computeTimerInfoSize_some _ ht,
    rangeCountSize_eq_sizeSum _ computeChildInfoSize_some _ hc,
    rangeCountSize_eq_sizeSum _ computeSignalInfoSize_some _ hs,
    Option.bind_eq_bind, Option.some_bind, Option.pure_def, Option.getD_some]

end ExactResults

/-! ## Order of the entries -/

section OrderLemmas

variable {K T : Type} [DecidableEq K]

theorem len_perm {α : Type} {xs ys : List α} (hp : xs.Perm ys) : len xs = len ys := by
  unfold len; rw [hp.length_eq]

theorem foldlM_countSize_perm {α : Type} (f : Option α → Option GoInt) {xs ys : List (Option α)}
    (hp : xs.Perm ys) (acc : GoInt × GoInt) :
    xs.foldlM (fun (acc : GoInt × GoInt) x => do
      let size ← f x
      pure (acc.1 + 1, acc.2 + size)) acc =
    ys.foldlM (fun (acc : GoInt × GoInt) x => do
      let size ← f x
      pure (acc.1 + 1, acc.2 + size)) acc := by
  induction hp generalizing acc with
  | nil => rfl
  | cons x _ ih =>
    simp only [List.foldlM_cons]
    cases f x with
    | none => rfl
    | some v => exact ih _
  | swap x y l =>
    simp only [List.foldlM_cons]
    cases hx : f x <;> cases hy : f y <;> simp [add_right_comm]
  | trans _ _ ih₁ ih₂ => exact (ih₁ acc).trans (ih₂ acc)

/-- The counting loop gives the same result, failure included, in whatever
order it meets the entries. -/
theorem rangeCountSize_perm {α : Type} (f : Option α → Option GoInt) {xs ys : List (Option α)}
    (hp : xs.Perm ys) : rangeCountSize f xs = rangeCountSize f ys :=
  foldlM_countSize_perm f hp (0, 0)

theorem sameMap_computeTaskCountByCategory (t₁ t₂ : GoMap K (List T))
    (hp : t₁.entries.Perm t₂.entries) :
    SameMap (computeTaskCountByCategory t₁) (computeTaskCountByCategory t₂) := by
  intro k
  rw [lookup_computeTaskCountByCategory, lookup_computeTaskCountByCategory,
    AList.perm_lookup hp]

end OrderLemmas

/-! ## Signs -/

section SignLemmas

variable {K T : Type} [DecidableEq K]

theorem val_len_of_lt_intLimit {α : Type} (l : List α) (h : l.length < intLimit) :
    (len l).val = l.length :=
  val_len_of_lt l h

theorem val_add_of_lt_intLimit {a b : GoInt} {n m : ℕ} (ha : a.val = n) (hb : b.val = m)
    (h : n + m < intLimit) : (a + b).val = (n + m : ℕ) :=
  val_add_of_lt ha hb h

/-- The Go sum of two values between 0 and `w₁`, `w₂` is between 0 and
`w₁ + w₂` when that is below `2^63`. -/
theorem val_add_bounded (a b : GoInt) (w₁ w₂ : ℕ) (ha : 0 ≤ a.val ∧ a.val ≤ w₁)
    (hb : 0 ≤ b.val ∧ b.val ≤ w₂) (hw : w₁ + w₂ < intLimit) :
    0 ≤ (a + b).val ∧ (a + b).val ≤ (w₁ + w₂ : ℕ) := by
  simp only [intLimit] at hw
  rw [val_add]; unfold wrap; omega

theorem val_eventLen (ev : Option DataBlob) (h : eventBytes ev < intLimit) :
    ((ev.map fun e => len e.Data).getD 0).val = eventBytes ev := by
  cases ev with
  | none => simp only [eventBytes, Option.map_none', Option.getD_none, val_zero, Nat.cast_zero]
  | some e => exact val_len_of_lt_intLimit e.Data h

theorem val_computeExecutionInfoSize (x : Option InternalWorkflowExecutionInfo)
    (h : executionInfoBytes x < intLimit) :
    ((computeExecutionInfoSize x).getD 0).val = executionInfoBytes x := by
  cases x with
  | none => simp only [computeExecutionInfoSize, executionInfoBytes, Option.bind_eq_bind,
      Option.none_bind, Option.getD_none, val_zero, Nat.cast_zero]
  | some e =>
    simp only [executionInfoBytes] at h ⊢
    have h₁ := val_len_of_lt_intLimit e.WorkflowID (by omega)
    have h₂ := val_len_of_lt_intLimit e.TaskList (by omega)
    have h₃ := val_len_of_lt_intLimit e.WorkflowTypeName (by omega)
    have h₄ := val_len_of_lt_intLimit e.ParentWorkflowID (by omega)
    exact val_add_of_lt_intLimit
      (val_add_of_lt_intLimit (val_add_of_lt_intLimit h₁ h₂ (by omega)) h₃ (by omega)) h₄ h

theorem val_computeActivityInfoSize (x : Option InternalActivityInfo)
    (h : activityBytes x < intLimit) :
    ((computeActivityInfoSize x).getD 0).val = activityBytes x := by
  cases x with
  | none => simp only [computeActivityInfoSize, activityBytes, Option.bind_eq_bind,
      Option.none_bind, Option.getD_none, val_zero, Nat.cast_zero]
  | some a =>
    obtain ⟨scheduled, started, id, details⟩ := a
    simp only [activityBytes] at h ⊢
    have h₁ := val_len_of_lt_intLimit id (by omega)
    have h₄ := val_len_of_lt_intLimit details (by omega)
    cases scheduled with
    | none =>
      cases started with
      | none =>
        simp only [eventBytes, Nat.add_zero] at h ⊢
        exact val_add_of_lt_intLimit h₁ h₄ h
      | some e₂ =>
        simp only [eventBytes, Nat.add_zero] at h ⊢
        have h₃ := val_len_of_lt_intLimit e₂.Data (by omega)
        exact val_add_of_lt_intLimit (val_add_of_lt_intLimit h₁ h₃ (by omega)) h₄ h
    | some e₁ =>
      cases started with
      | none =>
        simp only [eventBytes, Nat.add_zero] at h ⊢
        have h₂ := val_len_of_lt_intLimit e₁.Data (by omega)
        exact val_add_of_lt_intLimit (val_add_of_lt_intLimit h₁ h₂ (by omega)) h₄ h
      | some e₂ =>
        simp only [eventBytes] at h ⊢
        have h₂ := val_len_of_lt_intLimit e₁.Data (by omega)
        have h₃ := val_len_of_lt_intLimit e₂.Data (by omega)
        exact val_add_of_lt_intLimit
          (val_add_of_lt_intLimit (val_add_of_lt_intLimit h₁ h₂ (by omega)) h₃ (by omega)) h₄ h

theorem val_computeTimerInfoSize (x : Option TimerInfo) (h : timerBytes x < intLimit) :
    ((computeTimerInfoSize x).getD 0).val = timerBytes x := by
  cases x with
  | none => simp only [computeTimerInfoSize, timerBytes, Option.bind_eq_bind,
      Option.none_bind, Option.getD_none, val_zero, Nat.cast_zero]
  | some t => exact val_len_of_lt_intLimit t.TimerID h

theorem val_computeChildInfoSize (x : Option InternalChildExecutionInfo)
    (h : childBytes x < intLimit) :
    ((computeChildInfoSize x).getD 0).val = childBytes x := by
  cases x with
  | none => simp only [computeChildInfoSize, childBytes, Option.bind_eq_bind,
      Option.none_bind, Option.getD_none, val_zero, Nat.cast_zero]
  | some c =>
    obtain ⟨id, initiated, wid, started⟩ := c
    simp only [childBytes] at h ⊢
    have z : (0 : GoInt).val = (0 : ℕ) := by rw [val_zero]; rfl
    cases initiated with
    | none =>
      cases started with
      | none =>
        simp only [computeChildInfoSize, eventBytes, Option.bind_eq_bind, Option.some_bind,
          Option.pure_def, Option.getD_some]
        exact z
      | some e₂ =>
        simp only [eventBytes, Nat.zero_add] at h ⊢
        have h₂ := val_len_of_lt_intLimit e₂.Data h
        have := val_add_of_lt_intLimit z h₂ (by omega)
        simpa only [Nat.zero_add] using this
    | some e₁ =>
      cases started with
      | none =>
        simp only [eventBytes, Nat.add_zero] at h ⊢
        have h₁ := val_len_of_lt_intLimit e₁.Data h
        have := val_add_of_lt_intLimit z h₁ (by omega)
        simpa only [Nat.zero_add] using this
      | some e₂ =>
        simp only [eventBytes] at h ⊢
        have h₁ := val_len_of_lt_intLimit e₁.Data (by omega)
        have h₂ := val_len_of_lt_intLimit e₂.Data (by omega)
        have := val_add_of_lt_intLimit (val_add_of_lt_intLimit z h₁ (by omega)) h₂ (by omega)
        simpa only [Nat.zero_add] using this

theorem val_computeSignalInfoSize (x : Option SignalInfo) (h : signalBytes x < intLimit) :
    ((computeSignalInfoSize x).getD 0).val = signalBytes x := by
  cases x with
  | none => simp only [computeSignalInfoSize, signalBytes, Option.bind_eq_bind,
      Option.none_bind, Option.getD_none, val_zero, Nat.cast_zero]
  | some s =>
    simp only [signalBytes] at h ⊢
    have h₁ := val_len_of_lt_intLimit s.SignalName (by omega)
    have h₂ := val_len_of_lt_intLimit s.Input (by omega)
    have h₃ := val_len_of_lt_intLimit s.Control (by omega)
    exact val_add_of_lt_intLimit (val_add_of_lt_intLimit h₁ h₂ (by omega)) h₃ h

theorem val_bufferedEventSize (x : Option DataBlob) (h : eventBytes x < intLimit) :
    ((bufferedEventSize x).getD 0).val = eventBytes x := by
  cases x with
  | none => simp only [bufferedEventSize, eventBytes, Option.bind_eq_bind,
      Option.none_bind, Option.getD_none, val_zero, Nat.cast_zero]
  | some b => exact val_len_of_lt_intLimit b.Data h

/-- Below `2^63` the Go sum of the sizes of a collection stands for the exact
number of bytes. -/
theorem val_sizeSum {α : Type} (f : Option α → Option GoInt) (g : Option α → Nat)
    (hfg : ∀ x, g x < intLimit → ((f x).getD 0).val = g x) (xs : List (Option α))
    (h : bytesOf g xs < intLimit) : (sizeSum f xs).val = bytesOf g xs := by
  induction xs with
  | nil => simp only [sizeSum, bytesOf, List.map_nil, List.sum_nil, val_zero, Nat.cast_zero]
  | cons x xs ih =>
    have hsum : bytesOf g (x :: xs) = g x + bytesOf g xs := by
      simp only [bytesOf, List.map_cons, List.sum_cons]
    rw [hsum] at h ⊢
    have hx : g x < intLimit := by omega
    have hxs : bytesOf g xs < intLimit := by omega
    have e : sizeSum f (x :: xs) = (f x).getD 0 + sizeSum f xs := by
      simp only [sizeSum, List.map_cons, List.sum_cons]
    rw [e]
    exact val_add_of_lt_intLimit (hfg x hx) (ih hxs) h

theorem length_le_taskEntries (tasks : GoMap K (List T)) (k : K) (l : List T)
    (h : AList.lookup k tasks = some l) : l.length ≤ taskEntries tasks := by
  have hm : (⟨k, l⟩ : Sigma fun _ : K => List T) ∈ tasks.entries :=
    AList.mem_lookup_iff.1 h
  unfold taskEntries
  exact List.single_le_sum (fun _ _ => Nat.zero_le _) _
    (List.mem_map.2 ⟨_, hm, rfl⟩)

theorem taskCount_computeTaskCountByCategory_bounded (tasks : GoMap K (List T)) (w : Nat)
    (hw : taskEntries tasks ≤ w) (hlim : w < intLimit) (k : K) (v : GoInt)
    (h : AList.lookup k (computeTaskCountByCategory tasks) = some v) :
    0 ≤ v.val ∧ v.val ≤ w := by
  rw [lookup_computeTaskCountByCategory] at h
  cases hl : AList.lookup k tasks with
  | none => simp [hl] at h
  | some l =>
    simp only [hl, Option.map_some', Option.some.injEq] at h
    subst h
    have h1 := length_le_taskEntries tasks k l hl
    have h2 : l.length < intLimit := by omega
    rw [val_len_of_lt_intLimit l h2]
    omega

end SignLemmas

section BoundLemmas

variable {K T : Type} [DecidableEq K]

theorem fullState_nonneg (state : InternalWorkflowMutableState)
    (h : WellFormedResponse ⟨some state⟩) (hw : stateWeight state < intLimit) :
    ∃ s, computeMutableStateStats ⟨some state⟩ = some s ∧
      ∀ x ∈ fullStateFields s, 0 ≤ x.val := by
  refine ⟨_, computeMutableStateStats_eq state h, ?_⟩
  simp only [stateWeight] at hw
  have b₁ : executionInfoBytes state.ExecutionInfo < intLimit := by omega
  have b₂ : bytesOf activityBytes state.ActivityInfos < intLimit := by omega
  have b₃ : bytesOf timerBytes state.TimerInfos < intLimit := by omega
  have b₄ : bytesOf childBytes state.ChildExecutionInfos < intLimit := by omega
  have b₅ : bytesOf signalBytes state.SignalInfos < intLimit := by omega
  have b₆ : bytesOf eventBytes state.BufferedEvents < intLimit := by omega
  have s₂ : executionInfoBytes state.ExecutionInfo + bytesOf activityBytes state.ActivityInfos
      < intLimit := by omega
  have s₃ : executionInfoBytes state.ExecutionInfo + bytesOf activityBytes state.ActivityInfos +
      bytesOf timerBytes state.TimerInfos < intLimit := by omega
  have s₄ : executionInfoBytes state.ExecutionInfo + bytesOf activityBytes state.ActivityInfos +
      bytesOf timerBytes state.TimerInfos + bytesOf childBytes state.ChildExecutionInfos
      < intLimit := by omega
  have s₅ : executionInfoBytes state.ExecutionInfo + bytesOf activityBytes state.ActivityInfos +
      bytesOf timerBytes state.TimerInfos + bytesOf childBytes state.ChildExecutionInfos +
      bytesOf signalBytes state.SignalInfos < intLimit := by omega
  have s₆ : executionInfoBytes state.ExecutionInfo + bytesOf activityBytes state.ActivityInfos +
      bytesOf timerBytes state.TimerInfos + bytesOf childBytes state.ChildExecutionInfos +
      bytesOf signalBytes state.SignalInfos + bytesOf eventBytes state.BufferedEvents
      < intLimit := by omega
  have n₁ : state.ActivityInfos.length < intLimit := by omega
  have n₂ : state.TimerInfos.length < intLimit := by omega
  have n₃ : state.ChildExecutionInfos.length < intLimit := by omega
  have n₄ : state.SignalInfos.length < intLimit := by omega
  have n₅ : state.RequestCancelInfos.length < intLimit := by omega
  have n₆ : state.BufferedEvents.length < intLimit := by omega
  have e := val_computeExecutionInfoSize state.ExecutionInfo b₁
  have a := val_sizeSum _ _ val_computeActivityInfoSize state.ActivityInfos b₂
  have t := val_sizeSum _ _ val_computeTimerInfoSize state.TimerInfos b₃
  have c := val_sizeSum _ _ val_computeChildInfoSize state.ChildExecutionInfos b₄
  have s := val_sizeSum _ _ val_computeSignalInfoSize state.SignalInfos b₅
  have b := val_sizeSum _ _ val_bufferedEventSize state.BufferedEvents b₆
  have tot := val_add_of_lt_intLimit (val_add_of_lt_intLimit (val_add_of_lt_intLimit
    (val_add_of_lt_intLimit (val_add_of_lt_intLimit e a s₂) t s₃) c s₄) s s₅) b s₆
  have l₁ := val_len_of_lt_intLimit state.ActivityInfos n₁
  have l₂ := val_len_of_lt_intLimit state.TimerInfos n₂
  have l₃ := val_len_of_lt_intLimit state.ChildExecutionInfos n₃
  have l₄ := val_len_of_lt_intLimit state.SignalInfos n₄
  have l₅ := val_len_of_lt_intLimit state.RequestCancelInfos n₅
  have l₆ := val_len_of_lt_intLimit state.BufferedEvents n₆
  simp only [fullStateFields, List.mem_cons, List.mem_singleton, List.mem_nil_iff, or_false]
  rintro x (rfl | rfl | rfl | rfl | rfl | rfl | rfl | rfl | rfl | rfl | rfl | rfl | rfl)
  · rw [tot]; exact Int.natCast_nonneg _
  · rw [e]; exact Int.natCast_nonneg _
  · rw [a]; exact Int.natCast_nonneg _
  · rw [t]; exact Int.natCast_nonneg _
  · rw [c]; exact Int.natCast_nonneg _
  · rw [s]; exact Int.natCast_nonneg _
  · rw [b]; exact Int.natCast_nonneg _
  · rw [l₁]; exact Int.natCast_nonneg _
  · rw [l₂]; exact Int.natCast_nonneg _
  · rw [l₃]; exact Int.natCast_nonneg _
  · rw [l₄]; exact Int.natCast_nonneg _
  · rw [l₅]; exact Int.natCast_nonneg _
  · rw [l₆]; exact Int.natCast_nonneg _

theorem boundedBy_snapshot (req : InternalWorkflowSnapshot K T) (h : WellFormedSnapshot req)
    (hw : snapshotWeight req < intLimit) :
    ∃ s, computeWorkflowSnapshotStats req = some s ∧ BoundedBy s (snapshotWeight req) := by
  refine ⟨_, computeWorkflowSnapshotStats_eq req h, ?_, ?_⟩
  · simp only [snapshotWeight] at hw ⊢
    have b₁ : executionInfoBytes req.ExecutionInfo < intLimit := by omega
    have b₂ : bytesOf activityBytes req.ActivityInfos < intLimit := by omega
    have b₃ : bytesOf timerBytes req.TimerInfos < intLimit := by omega
    have b₄ : bytesOf childBytes req.ChildExecutionInfos < intLimit := by omega
    have b₅ : bytesOf signalBytes req.SignalInfos < intLimit := by omega
    have s₂ : executionInfoBytes req.ExecutionInfo + bytesOf activityBytes req.ActivityInfos
        < intLimit := by omega
    have s₃ : executionInfoBytes req.ExecutionInfo + bytesOf activityBytes req.ActivityInfos +
        bytesOf timerBytes req.TimerInfos < intLimit := by omega
    have s₄ : executionInfoBytes req.ExecutionInfo + bytesOf activityBytes req.ActivityInfos +
        bytesOf timerBytes req.TimerInfos + bytesOf childBytes req.ChildExecutionInfos
        < intLimit := by omega
    have s₅ : executionInfoBytes req.ExecutionInfo + bytesOf activityBytes req.ActivityInfos +
        bytesOf timerBytes req.TimerInfos + bytesOf childBytes req.ChildExecutionInfos +
        bytesOf signalBytes req.SignalInfos < intLimit := by omega
    have n₁ : req.ActivityInfos.length < intLimit := by omega
    have n₂ : req.TimerInfos.length < intLimit := by omega
    have n₃ : req.ChildExecutionInfos.length < intLimit := by omega
    have n₄ : req.SignalInfos.length < intLimit := by omega
    have n₅ : req.RequestCancelInfos.length < intLimit := by omega
    have e := val_computeExecutionInfoSize req.ExecutionInfo b₁
    have a := val_sizeSum _ _ val_computeActivityInfoSize req.ActivityInfos b₂
    have t := val_sizeSum _ _ val_computeTimerInfoSize req.TimerInfos b₃
    have c := val_sizeSum _ _ val_computeChildInfoSize req.ChildExecutionInfos b₄
    have s := val_sizeSum _ _ val_computeSignalInfoSize req.SignalInfos b₅
    have tot := val_add_of_lt_intLimit (val_add_of_lt_intLimit (val_add_of_lt_intLimit
      (val_add_of_lt_intLimit e a s₂) t s₃) c s₄) s s₅
    have l₁ := val_len_of_lt_intLimit req.ActivityInfos n₁
    have l₂ := val_len_of_lt_intLimit req.TimerInfos n₂
    have l₃ := val_len_of_lt_intLimit req.ChildExecutionInfos n₃
    have l₄ := val_len_of_lt_intLimit req.SignalInfos n₄
    have l₅ := val_len_of_lt_intLimit req.RequestCancelInfos n₅
    simp only [numericFields, List.mem_cons, List.mem_singleton, List.mem_nil_iff, or_false]
    rintro x (rfl | rfl | rfl | rfl | rfl | rfl | rfl | rfl | rfl | rfl | rfl | rfl | rfl | rfl |
      rfl | rfl | rfl) <;>
      simp only [tot, val_zero, e, a, t, c, s, l₁, l₂, l₃, l₄, l₅] <;>
      (clear tot e a t c s l₁ l₂ l₃ l₄ l₅; omega)
  · intro k v hv
    refine taskCount_computeTaskCountByCategory_bounded req.TasksByCategory _ ?_ hw k v hv
    simp only [snapshotWeight]; omega

theorem boundedBy_mutation (req : InternalWorkflowMutation K T) (h : WellFormedMutation req)
    (hw : mutationWeight req < intLimit) :
    ∃ s, computeWorkflowMutationStats req = some s ∧ BoundedBy s (mutationWeight req) := by
  refine ⟨_, computeWorkflowMutationStats_eq req h, ?_, ?_⟩
  · simp only [mutationWeight] at hw ⊢
    have b₁ : executionInfoBytes req.ExecutionInfo < intLimit := by omega
    have b₂ : bytesOf activityBytes req.UpsertActivityInfos < intLimit := by omega
    have b₃ : bytesOf timerBytes req.UpsertTimerInfos < intLimit := by omega
    have b₄ : bytesOf childBytes req.UpsertChildExecutionInfos < intLimit := by omega
    have b₅ : bytesOf signalBytes req.UpsertSignalInfos < intLimit := by omega
    have b₆ : eventBytes req.NewBufferedEvents < intLimit := by omega
    have s₂ : executionInfoBytes req.ExecutionInfo +
        bytesOf activityBytes req.UpsertActivityInfos < intLimit := by omega
    have s₃ : executionInfoBytes req.ExecutionInfo +
        bytesOf activityBytes req.UpsertActivityInfos +
        bytesOf timerBytes req.UpsertTimerInfos < intLimit := by omega
    have s₄ : executionInfoBytes req.ExecutionInfo +
        bytesOf activityBytes req.UpsertActivityInfos +
        bytesOf timerBytes req.UpsertTimerInfos +
        bytesOf childBytes req.UpsertChildExecutionInfos < intLimit := by omega
    have s₅ : executionInfoBytes req.ExecutionInfo +
        bytesOf activityBytes req.UpsertActivityInfos +
        bytesOf timerBytes req.UpsertTimerInfos +
        bytesOf childBytes req.UpsertChildExecutionInfos +
        bytesOf signalBytes req.UpsertSignalInfos < intLimit := by omega
    have s₆ : executionInfoBytes req.ExecutionInfo +
        bytesOf activityBytes req.UpsertActivityInfos +
        bytesOf timerBytes req.UpsertTimerInfos +
        bytesOf childBytes req.UpsertChildExecutionInfos +
        bytesOf signalBytes req.UpsertSignalInfos +
        eventBytes req.NewBufferedEvents < intLimit := by omega
    have n₁ : req.UpsertActivityInfos.length < intLimit := by omega
    have n₂ : req.UpsertTimerInfos.length < intLimit := by omega
    have n₃ : req.UpsertChildExecutionInfos.length < intLimit := by omega
    have n₄ : req.UpsertSignalInfos.length < intLimit := by omega
    have n₅ : req.UpsertRequestCancelInfos.length < intLimit := by omega
    have m₁ : req.DeleteActivityInfos.length < intLimit := by omega
    have m₂ : req.DeleteTimerInfos.length < intLimit := by omega
    have m₃ : req.DeleteChildExecutionInfos.length < intLimit := by omega
    have m₄ : req.DeleteSignalInfos.length < intLimit := by omega
    have m₅ : req.DeleteRequestCancelInfos.length < intLimit := by omega
    have e := val_computeExecutionInfoSize req.ExecutionInfo b₁
    have a := val_sizeSum _ _ val_computeActivityInfoSize req.UpsertActivityInfos b₂
    have t := val_sizeSum _ _ val_computeTimerInfoSize req.UpsertTimerInfos b₃
    have c := val_sizeSum _ _ val_computeChildInfoSize req.UpsertChildExecutionInfos b₄
    have s := val_sizeSum _ _ val_computeSignalInfoSize req.UpsertSignalInfos b₅
    have b := val_eventLen req.NewBufferedEvents b₆
    have tot := val_add_of_lt_intLimit (val_add_of_lt_intLimit (val_add_of_lt_intLimit
      (val_add_of_lt_intLimit (val_add_of_lt_intLimit e a s₂) t s₃) c s₄) s s₅) b s₆
    have l₁ := val_len_of_lt_intLimit req.UpsertActivityInfos n₁
    have l₂ := val_len_of_lt_intLimit req.UpsertTimerInfos n₂
    have l₃ := val_len_of_lt_intLimit req.UpsertChildExecutionInfos n₃
    have l₄ := val_len_of_lt_intLimit req.UpsertSignalInfos n₄
    have l₅ := val_len_of_lt_intLimit req.UpsertRequestCancelInfos n₅
    have d₁ := val_len_of_lt_intLimit req.DeleteActivityInfos m₁
    have d₂ := val_len_of_lt_intLimit req.DeleteTimerInfos m₂
    have d₃ := val_len_of_lt_intLimit req.DeleteChildExecutionInfos m₃
    have d₄ := val_len_of_lt_intLimit req.DeleteSignalInfos m₄
    have d₅ := val_len_of_lt_intLimit req.DeleteRequestCancelInfos m₅
    simp only [numericFields, List.mem_cons, List.mem_singleton, List.mem_nil_iff, or_false]
    rintro x (rfl | rfl | rfl | rfl | rfl | rfl | rfl | rfl | rfl | rfl | rfl | rfl | rfl | rfl |
      rfl | rfl | rfl) <;>
      simp only [tot, e, a, t, c, s, b, l₁, l₂, l₃, l₄, l₅, d₁, d₂, d₃, d₄, d₅] <;>
      (clear tot e a t c s b l₁ l₂ l₃ l₄ l₅ d₁ d₂ d₃ d₄ d₅; omega)
  · intro k v hv
    refine taskCount_computeTaskCountByCategory_bounded req.TasksByCategory _ ?_ hw k v hv
    simp only [mutationWeight]; omega

/-- Each numeric field of a merge is the Go sum of the field over the
sequence. -/
theorem projection_merge (f : MutableStateUpdateSessionStats K → GoInt)
    (hf : f ∈ numericProjections) (l : List (MutableStateUpdateSessionStats K)) :
    f (mergeMutableStateUpdateSessionStats l) = (l.map f).sum := by
  simp only [numericProjections, List.mem_cons, List.mem_singleton, List.mem_nil_iff,
    or_false] at hf
  rcases hf with rfl | rfl | rfl | rfl | rfl | rfl | rfl | rfl | rfl | rfl | rfl | rfl |
    rfl | rfl | rfl | rfl | rfl <;> exact field_merge _ (fun _ _ => rfl) rfl l

theorem boundedBy_merge_pair (a b : MutableStateUpdateSessionStats K) (w₁ w₂ : Nat)
    (ha : BoundedBy a w₁) (hb : BoundedBy b w₂) (hw : w₁ + w₂ < intLimit) :
    BoundedBy (mergeMutableStateUpdateSessionStats [a, b]) (w₁ + w₂) := by
  obtain ⟨ha, hta⟩ := ha
  obtain ⟨hb, htb⟩ := hb
  refine ⟨fun x hx => ?_, fun k v hv => ?_⟩
  · obtain ⟨f, hf, rfl⟩ : ∃ f ∈ numericProjections,
        f (mergeMutableStateUpdateSessionStats [a, b]) = x :=
      List.mem_map.1 (show x ∈ numericProjections.map
        fun f => f (mergeMutableStateUpdateSessionStats [a, b]) from hx)
    have hfa : f a ∈ numericFields a :=
      show f a ∈ numericProjections.map fun f => f a from List.mem_map.2 ⟨f, hf, rfl⟩
    have hfb : f b ∈ numericFields b :=
      show f b ∈ numericProjections.map fun f => f b from List.mem_map.2 ⟨f, hf, rfl⟩
    rw [projection_merge f hf]
    simp only [List.map_cons, List.map_nil, List.sum_cons, List.sum_nil, add_zero]
    exact val_add_bounded _ _ _ _ (ha _ hfa) (hb _ hfb) hw
  · rw [taskCount_merge] at hv
    simp only [List.map_cons, List.map_nil, List.foldr_cons, List.foldr_nil,
      addCount_none_right] at hv
    cases hka : taskCount a k with
    | none =>
      rw [hka, addCount_none_left] at hv
      have h2 := htb k v hv
      exact ⟨h2.1, h2.2.trans (Int.ofNat_le.2 (Nat.le_add_left w₂ w₁))⟩
    | some x =>
      cases hkb : taskCount b k with
      | none =>
        rw [hka, hkb, addCount_none_right] at hv
        have h1 := hta k v (hka.trans hv)
        exact ⟨h1.1, h1.2.trans (Int.ofNat_le.2 (Nat.le_add_right w₁ w₂))⟩
      | some y =>
        rw [hka, hkb] at hv
        simp only [addCount, Option.some.injEq] at hv
        rw [← hv]
        exact val_add_bounded _ _ _ _ (hta k x hka) (htb k y hkb) hw

theorem BoundedBy.nonNegative {s : MutableStateUpdateSessionStats K} {w : Nat}
    (h : BoundedBy s w) : NonNegative s :=
  ⟨fun x hx => (h.1 x hx).1, fun k v hv => (h.2 k v hv).1⟩

end BoundLemmas

/-! ## A collection that repeats one pointer -/

theorem wellFormed_repeatedActivitySnapshot (count size : Nat) :
    WellFormedSnapshot (repeatedActivitySnapshot count size) := by
  have nn : ∀ {α : Type}, noNil ([] : List (Option α)) :=
    fun x hx => absurd hx (List.not_mem_nil _)
  exact ⟨rfl, fun x hx => by rw [List.eq_of_mem_replicate hx]; rfl, nn, nn, nn⟩

theorem activityBytes_largeActivity (size : Nat) :
    activityBytes (some (largeActivity size)) = size := by
  simp only [activityBytes, largeActivity, eventBytes, List.length_nil,
    List.length_replicate, Nat.add_zero, Nat.zero_add]

/-- The activity size of the repeating snapshot stands for `count * size`,
wrapped. -/
theorem val_activitySize_repeated (count size : Nat) (h : size < intLimit) :
    (sizeSum computeActivityInfoSize (repeatedActivitySnapshot count size).ActivityInfos).val =
      wrap ((count : Int) * (size : Int)) := by
  have hone : ((computeActivityInfoSize (some (largeActivity size))).getD 0).val = size := by
    rw [val_computeActivityInfoSize _ (by rw [activityBytes_largeActivity]; exact h),
      activityBytes_largeActivity]
  show (List.sum (List.map (fun x => (computeActivityInfoSize x).getD 0)
    (List.replicate count (some (largeActivity size))))).val = _
  rw [val_sum, List.map_replicate, List.map_replicate, hone, List.sum_replicate, nsmul_eq_mul]

/-- The repeating snapshot has no other payload: its total size is its
activity size. -/
theorem createStats_repeated (count size : Nat) :
    Option.map MutableStateUpdateSessionStats.ActivityInfoSize
      (computeMutableStateCreateStats ⟨repeatedActivitySnapshot count size⟩) =
      some (sizeSum computeActivityInfoSize (repeatedActivitySnapshot count size).ActivityInfos) ∧
    Option.map MutableStateUpdateSessionStats.MutableStateSize
      (computeMutableStateCreateStats ⟨repeatedActivitySnapshot count size⟩) =
      some (sizeSum computeActivityInfoSize
        (repeatedActivitySnapshot count size).ActivityInfos) := by
  have wf := wellFormed_repeatedActivitySnapshot count size
  have hexec : (computeExecutionInfoSize
      (repeatedActivitySnapshot count size).ExecutionInfo).getD 0 = 0 := by
    simp only [repeatedActivitySnapshot, computeExecutionInfoSize, Option.bind_eq_bind,
      Option.some_bind, Option.pure_def, Option.getD_some, len_nil, add_zero]
  have hempty : ∀ {α : Type} (f : Option α → Option GoInt), sizeSum f [] = 0 := fun _ => rfl
  have ht : sizeSum computeTimerInfoSize
      (repeatedActivitySnapshot count size).TimerInfos = 0 := hempty _
  have hc : sizeSum computeChildInfoSize
      (repeatedActivitySnapshot count size).ChildExecutionInfos = 0 := hempty _
  have hs : sizeSum computeSignalInfoSize
      (repeatedActivitySnapshot count size).SignalInfos = 0 := hempty _
  constructor
  · simp only [computeMutableStateCreateStats, computeWorkflowSnapshotStats_eq _ wf,
      Option.map_some']
  · simp only [computeMutableStateCreateStats, computeWorkflowSnapshotStats_eq _ wf,
      Option.map_some', hexec, ht, hc, hs, zero_add, add_zero]

/-! ## Claims -/

/-- C1: for every full-state input whose state and execution descriptor are
present and whose collections hold no nil entry, `computeMutableStateStats`
returns a value whose total size is the sum of its six per-kind sizes. -/
theorem computeMutableStateStats_total_size (req : InternalGetWorkflowExecutionResponse)
    (h : WellFormedResponse req) :
    ∃ s, computeMutableStateStats req = some s ∧
      s.MutableStateSize = s.ExecutionInfoSize + s.ActivityInfoSize + s.TimerInfoSize +
        s.ChildInfoSize + s.SignalInfoSize + s.BufferedEventsSize := by
  obtain ⟨state⟩ := req
  cases state with
  | none => exact absurd h (by simp [WellFormedResponse])
  | some state =>
    obtain ⟨he, ha, ht, hc, hs, hb⟩ := h
    obtain ⟨e, he⟩ := Option.isSome_iff_exists.1 he
    simp only [computeMutableStateStats, he, computeExecutionInfoSize,
      rangeCountSize_eq _ computeActivityInfoSize_some _ ha,
      rangeCountSize_eq _ computeTimerInfoSize_some _ ht,
      rangeCountSize_eq _ computeChildInfoSize_some _ hc,
      rangeCountSize_eq _ computeSignalInfoSize_some _ hs,
      rangeCountSize_eq _ bufferedEventSize_some _ hb,
      Option.bind_eq_bind, Option.some_bind, Option.pure_def]
    exact ⟨_, rfl, rfl⟩

theorem computeMutableStateStats_total_size_witness :
    WellFormedResponse exampleResponse ∧
    ∃ s, computeMutableStateStats exampleResponse = some s ∧
      s.MutableStateSize = s.ExecutionInfoSize + s.ActivityInfoSize + s.TimerInfoSize +
        s.ChildInfoSize + s.SignalInfoSize + s.BufferedEventsSize :=
  ⟨by with_unfolding_all decide, computeMutableStateStats_total_size exampleResponse (by with_unfolding_all decide)⟩

/-- C2: for every well-formed update, create and conflict-resolve request the
entry point returns statistics whose total size is the sum of the six per-kind
sizes, with or without the optional new snapshot and current mutation. -/
theorem session_stats_total_size {K T : Type} [DecidableEq K] :
    (∀ req : InternalUpdateWorkflowExecutionRequest K T, WellFormedUpdateRequest req →
      ∃ s, computeMutableStateUpdateStats req = some s ∧ TotalSizeInvariant s) ∧
    (∀ req : InternalCreateWorkflowExecutionRequest K T, WellFormedCreateRequest req →
      ∃ s, computeMutableStateCreateStats req = some s ∧ TotalSizeInvariant s) ∧
    (∀ req : InternalConflictResolveWorkflowExecutionRequest K T,
      WellFormedConflictResolveRequest req →
      ∃ s, computeMutableStateConflictResolveStats req = some s ∧ TotalSizeInvariant s) := by
  refine ⟨?_, ?_, ?_⟩
  · rintro ⟨mutation, snapshot⟩ ⟨wm, ws⟩
    obtain ⟨m, hm, him, -⟩ := computeWorkflowMutationStats_spec mutation wm
    cases snapshot with
    | none => exact ⟨m, by simp [computeMutableStateUpdateStats, hm], him⟩
    | some snapshot =>
      obtain ⟨s, hs, his, -⟩ := computeWorkflowSnapshotStats_spec snapshot (ws snapshot rfl)
      exact ⟨_, by simp [computeMutableStateUpdateStats, hm, hs],
        totalSizeInvariant_merge_pair m s him his⟩
  · intro req h
    obtain ⟨s, hs, his, -⟩ := computeWorkflowSnapshotStats_spec req.NewWorkflowSnapshot h
    exact ⟨s, hs, his⟩
  · rintro ⟨reset, snapshot, mutation⟩ ⟨wr, ws, wm⟩
    obtain ⟨a, ha, hia, -⟩ := computeWorkflowSnapshotStats_spec reset wr
    cases snapshot with
    | none =>
      cases mutation with
      | none => exact ⟨a, by simp [computeMutableStateConflictResolveStats, ha], hia⟩
      | some mutation =>
        obtain ⟨c, hc, hic, -⟩ := computeWorkflowMutationStats_spec mutation (wm mutation rfl)
        exact ⟨_, by simp [computeMutableStateConflictResolveStats, ha, hc],
          totalSizeInvariant_merge_pair a c hia hic⟩
    | some snapshot =>
      obtain ⟨b, hb, hib, -⟩ := computeWorkflowSnapshotStats_spec snapshot (ws snapshot rfl)
      cases mutation with
      | none =>
        exact ⟨_, by simp [computeMutableStateConflictResolveStats, ha, hb],
          totalSizeInvariant_merge_pair a b hia hib⟩
      | some mutation =>
        obtain ⟨c, hc, hic, -⟩ := computeWorkflowMutationStats_spec mutation (wm mutation rfl)
        exact ⟨_, by simp [computeMutableStateConflictResolveStats, ha, hb, hc],
          totalSizeInvariant_merge_pair _ c (totalSizeInvariant_merge_pair a b hia hib) hic⟩

theorem session_stats_total_size_witness :
    (WellFormedUpdateRequest exampleUpdateRequest ∧
      ∃ s, computeMutableStateUpdateStats exampleUpdateRequest = some s ∧
        TotalSizeInvariant s) ∧
    (WellFormedCreateRequest exampleCreateRequest ∧
      ∃ s, computeMutableStateCreateStats exampleCreateRequest = some s ∧
        TotalSizeInvariant s) ∧
    (WellFormedConflictResolveRequest exampleConflictResolveRequest3 ∧
      ∃ s, computeMutableStateConflictResolveStats exampleConflictResolveRequest3 = some s ∧
        TotalSizeInvariant s) :=
  ⟨⟨by with_unfolding_all decide, session_stats_total_size.1 exampleUpdateRequest (by with_unfolding_all decide)⟩,
   ⟨by with_unfolding_all decide, session_stats_total_size.2.1 exampleCreateRequest (by with_unfolding_all decide)⟩,
   ⟨by with_unfolding_all decide, session_stats_total_size.2.2 exampleConflictResolveRequest3 (by with_unfolding_all decide)⟩⟩

/-- C3: the merge of any finite sequence of statistics values, each with total
size equal to the sum of its six per-kind sizes, has total size equal to the
sum of its six per-kind sizes; the empty sequence included. -/
theorem merge_preserves_total_size {K : Type} [DecidableEq K]
    (stats : List (MutableStateUpdateSessionStats K))
    (h : ∀ s ∈ stats, TotalSizeInvariant s) :
    TotalSizeInvariant (mergeMutableStateUpdateSessionStats stats) :=
  totalSizeInvariant_merge stats h

theorem merge_preserves_total_size_witness :
    (∀ s ∈ [exampleStatsA, exampleStatsB], TotalSizeInvariant s) ∧
    TotalSizeInvariant (mergeMutableStateUpdateSessionStats [exampleStatsA, exampleStatsB]) :=
  ⟨by with_unfolding_all decide,
   merge_preserves_total_size [exampleStatsA, exampleStatsB] (by with_unfolding_all decide)⟩

/-- C4: the merge of a finite sequence has, in each of the seventeen numeric
fields, the sum of that field over the sequence, in Go arithmetic: the field
stands for the integer sum of the elements' fields reduced modulo `2^64` into
`[-2^63, 2^63)`.  Its task-category mapping has exactly the keys of the
elements and maps a key to the sum, likewise, of the elements' counts for it,
an element without the key adding 0.  The merge of the empty sequence has
every numeric field 0 and an empty mapping. -/
theorem merge_is_fieldwise_sum {K : Type} [DecidableEq K]
    (stats : List (MutableStateUpdateSessionStats K)) :
    let r := mergeMutableStateUpdateSessionStats stats
    (r.MutableStateSize = (stats.map (·.MutableStateSize)).sum ∧
     r.ExecutionInfoSize = (stats.map (·.ExecutionInfoSize)).sum ∧
     r.ActivityInfoSize = (stats.map (·.ActivityInfoSize)).sum ∧
     r.TimerInfoSize = (stats.map (·.TimerInfoSize)).sum ∧
     r.ChildInfoSize = (stats.map (·.ChildInfoSize)).sum ∧
     r.SignalInfoSize = (stats.map (·.SignalInfoSize)).sum ∧
     r.BufferedEventsSize = (stats.map (·.BufferedEventsSize)).sum ∧
     r.ActivityInfoCount = (stats.map (·.ActivityInfoCount)).sum ∧
     r.TimerInfoCount = (stats.map (·.TimerInfoCount)).sum ∧
     r.ChildInfoCount = (stats.map (·.ChildInfoCount)).sum ∧
     r.SignalInfoCount = (stats.map (·.SignalInfoCount)).sum ∧
     r.RequestCancelInfoCount = (stats.map (·.RequestCancelInfoCount)).sum ∧
     r.DeleteActivityInfoCount = (stats.map (·.DeleteActivityInfoCount)).sum ∧
     r.DeleteTimerInfoCount = (stats.map (·.DeleteTimerInfoCount)).sum ∧
     r.DeleteChildInfoCount = (stats.map (·.DeleteChildInfoCount)).sum ∧
     r.DeleteSignalInfoCount = (stats.map (·.DeleteSignalInfoCount)).sum ∧
     r.DeleteRequestCancelInfoCount = (stats.map (·.DeleteRequestCancelInfoCount)).sum) ∧
    (∀ f ∈ numericProjections,
      (f r).val = wrap (stats.map fun s => (f s).val).sum) ∧
    (∀ k, taskCount r k =
      if ∃ s ∈ stats, (taskCount s k).isSome = true
      then some (stats.map fun s => (taskCount s k).getD 0).sum
      else none) ∧
    (∀ k v, taskCount r k = some v →
      v.val = wrap (stats.map fun s => ((taskCount s k).getD 0).val).sum) ∧
    (numericFields (mergeMutableStateUpdateSessionStats ([] : List (MutableStateUpdateSessionStats K)))
        = List.replicate 17 0 ∧
      (mergeMutableStateUpdateSessionStats
        ([] : List (MutableStateUpdateSessionStats K))).TaskCountByCategory = ∅) := by
  intro r
  have hk : ∀ k, taskCount r k =
      if ∃ s ∈ stats, (taskCount s k).isSome = true
      then some (stats.map fun s => (taskCount s k).getD 0).sum
      else none := by
    intro k
    rw [taskCount_merge, foldr_addCount]
    simp only [List.mem_map, exists_exists_and_eq_and, List.map_map]
    rfl
  refine ⟨⟨?_, ?_, ?_, ?_, ?_, ?_, ?_, ?_, ?_, ?_, ?_, ?_, ?_, ?_, ?_, ?_, ?_⟩, ?_, hk, ?_, ?_, ?_⟩
  iterate 17 exact field_merge _ (fun _ _ => rfl) rfl stats
  · intro f hf
    have hsum : f r = (stats.map f).sum := by
      simp only [numericProjections, List.mem_cons, List.mem_singleton, List.mem_nil_iff,
        or_false] at hf
      rcases hf with rfl | rfl | rfl | rfl | rfl | rfl | rfl | rfl | rfl | rfl | rfl | rfl |
        rfl | rfl | rfl | rfl | rfl <;> exact field_merge _ (fun _ _ => rfl) rfl stats
    rw [hsum, val_sum, List.map_map]
    rfl
  · intro k v hv
    rw [hk k] at hv
    split at hv
    · simp only [Option.some.injEq] at hv
      rw [← hv, val_sum, List.map_map]
      rfl
    · cases hv
  · rfl
  · rfl

/-- The merge wraps as Go does: merged with 1, the largest Go `int` gives the
smallest one, `-2^63`, in the numeric fields and in the task count. -/
theorem merge_wraps_at_the_largest_int :
    exampleStatsMax.MutableStateSize.val = 9223372036854775807 ∧
    exampleStatsOne.MutableStateSize.val = 1 ∧
    (mergeMutableStateUpdateSessionStats [exampleStatsMax, exampleStatsOne]).MutableStateSize.val =
      -9223372036854775808 ∧
    (mergeMutableStateUpdateSessionStats [exampleStatsMax, exampleStatsOne]).ExecutionInfoSize.val =
      -9223372036854775808 ∧
    Option.map GoInt.val
      (taskCount (mergeMutableStateUpdateSessionStats [exampleStatsMax, exampleStatsOne]) "A") =
      some (-9223372036854775808) := by
  refine ⟨by with_unfolding_all decide, by with_unfolding_all decide,
    by with_unfolding_all decide, by with_unfolding_all decide, ?_⟩
  have h1 : taskCount exampleStatsMax "A" = some 9223372036854775807 := rfl
  have h2 : taskCount exampleStatsOne "A" = some 1 := rfl
  rw [taskCount_merge]
  simp only [List.map_cons, List.map_nil, List.foldr_cons, List.foldr_nil, addCount_none_right,
    h1, h2, addCount, Option.map_some', Option.some.injEq, val_add]
  with_unfolding_all decide

/-- C5: the merge is commutative: `merge(A, B)` and `merge(B, A)` agree in
every numeric field and in the task-category mapping (same keys, same counts),
and so do the merges of a sequence and of any permutation of it. -/
theorem merge_commutative {K : Type} [DecidableEq K] :
    (∀ a b : MutableStateUpdateSessionStats K,
      SameStats (mergeMutableStateUpdateSessionStats [a, b])
        (mergeMutableStateUpdateSessionStats [b, a])) ∧
    (∀ l₁ l₂ : List (MutableStateUpdateSessionStats K), l₁.Perm l₂ →
      SameStats (mergeMutableStateUpdateSessionStats l₁)
        (mergeMutableStateUpdateSessionStats l₂)) :=
  ⟨fun a b => sameStats_merge_perm (List.Perm.swap b a []),
   fun _ _ hp => sameStats_merge_perm hp⟩

theorem merge_commutative_witness :
    [exampleStatsA, exampleStatsB, exampleStatsA].Perm
      [exampleStatsB, exampleStatsA, exampleStatsA] ∧
    SameStats
      (mergeMutableStateUpdateSessionStats [exampleStatsA, exampleStatsB, exampleStatsA])
      (mergeMutableStateUpdateSessionStats [exampleStatsB, exampleStatsA, exampleStatsA]) :=
  ⟨List.Perm.swap _ _ _, merge_commutative.2 _ _ (List.Perm.swap _ _ _)⟩

/-- C6: the merge is associative: `merge(merge(A, B), C)`, `merge(A, merge(B, C))`
and `merge(A, B, C)` agree in every numeric field and in the task-category
mapping. -/
theorem merge_associative {K : Type} [DecidableEq K]
    (a b c : MutableStateUpdateSessionStats K) :
    SameStats
      (mergeMutableStateUpdateSessionStats [mergeMutableStateUpdateSessionStats [a, b], c])
      (mergeMutableStateUpdateSessionStats [a, mergeMutableStateUpdateSessionStats [b, c]]) ∧
    SameStats
      (mergeMutableStateUpdateSessionStats [a, mergeMutableStateUpdateSessionStats [b, c]])
      (mergeMutableStateUpdateSessionStats [a, b, c]) :=
  ⟨(sameStats_merge_nested_left a b c).trans (sameStats_merge_nested_right a b c).symm,
   sameStats_merge_nested_right a b c⟩

/-- C7: the statistics value with every numeric field 0 and no task-category
entry is an identity of the merge: merged with any value `A`, on either side,
it gives a value equal to `A` in every numeric field and with the same
task-category mapping. -/
theorem merge_zero_identity {K : Type} [DecidableEq K] (a : MutableStateUpdateSessionStats K) :
    (numericFields (zeroStats : MutableStateUpdateSessionStats K) = List.replicate 17 0 ∧
      (zeroStats : MutableStateUpdateSessionStats K).TaskCountByCategory.entries = []) ∧
    SameStats (mergeMutableStateUpdateSessionStats [a, zeroStats]) a ∧
    SameStats (mergeMutableStateUpdateSessionStats [zeroStats, a]) a := by
  refine ⟨⟨rfl, rfl⟩, ⟨?_, fun k => ?_⟩, ⟨?_, fun k => ?_⟩⟩
  · simp [numericFields, mergeMutableStateUpdateSessionStats, mergeStep, zeroStats]
  · change taskCount _ k = taskCount _ k
    simp [taskCount_merge, taskCount_zeroStats, addCount_none_right]
  · simp [numericFields, mergeMutableStateUpdateSessionStats, mergeStep, zeroStats]
  · change taskCount _ k = taskCount _ k
    simp [taskCount_merge, taskCount_zeroStats, addCount_none_right, addCount_none_left]

/-- C8: without a new snapshot `computeMutableStateUpdateStats` returns exactly
the mutation statistics of the primary mutation; with one, every numeric field
of the result is the mutation statistics' field plus the snapshot statistics'
field and the task-category mapping is their per-key sum. -/
theorem update_stats_is_mutation_plus_snapshot {K T : Type} [DecidableEq K] :
    (∀ req : InternalUpdateWorkflowExecutionRequest K T, req.NewWorkflowSnapshot = none →
      computeMutableStateUpdateStats req =
        computeWorkflowMutationStats req.UpdateWorkflowMutation) ∧
    (∀ (req : InternalUpdateWorkflowExecutionRequest K T) (snapshot : InternalWorkflowSnapshot K T),
      req.NewWorkflowSnapshot = some snapshot → WellFormedUpdateRequest req →
      ∃ m s r, computeWorkflowMutationStats req.UpdateWorkflowMutation = some m ∧
        computeWorkflowSnapshotStats snapshot = some s ∧
        computeMutableStateUpdateStats req = some r ∧
        (r.MutableStateSize = m.MutableStateSize + s.MutableStateSize ∧
         r.ExecutionInfoSize = m.ExecutionInfoSize + s.ExecutionInfoSize ∧
         r.ActivityInfoSize = m.ActivityInfoSize + s.ActivityInfoSize ∧
         r.TimerInfoSize = m.TimerInfoSize + s.TimerInfoSize ∧
         r.ChildInfoSize = m.ChildInfoSize + s.ChildInfoSize ∧
         r.SignalInfoSize = m.SignalInfoSize + s.SignalInfoSize ∧
         r.BufferedEventsSize = m.BufferedEventsSize + s.BufferedEventsSize ∧
         r.ActivityInfoCount = m.ActivityInfoCount + s.ActivityInfoCount ∧
         r.TimerInfoCount = m.TimerInfoCount + s.TimerInfoCount ∧
         r.ChildInfoCount = m.ChildInfoCount + s.ChildInfoCount ∧
         r.SignalInfoCount = m.SignalInfoCount + s.SignalInfoCount ∧
         r.RequestCancelInfoCount = m.RequestCancelInfoCount + s.RequestCancelInfoCount ∧
         r.DeleteActivityInfoCount = m.DeleteActivityInfoCount + s.DeleteActivityInfoCount ∧
         r.DeleteTimerInfoCount = m.DeleteTimerInfoCount + s.DeleteTimerInfoCount ∧
         r.DeleteChildInfoCount = m.DeleteChildInfoCount + s.DeleteChildInfoCount ∧
         r.DeleteSignalInfoCount = m.DeleteSignalInfoCount + s.DeleteSignalInfoCount ∧
         r.DeleteRequestCancelInfoCount =
           m.DeleteRequestCancelInfoCount + s.DeleteRequestCancelInfoCount) ∧
        ∀ k, taskCount r k = addCount (taskCount m k) (taskCount s k)) := by
  refine ⟨?_, ?_⟩
  · intro req hn
    simp [computeMutableStateUpdateStats, hn]
  · rintro ⟨mutation, new⟩ snapshot hn ⟨wm, ws⟩
    obtain rfl : new = some snapshot := hn
    obtain ⟨m, hm, -, -⟩ := computeWorkflowMutationStats_spec mutation wm
    obtain ⟨s, hs, -, -⟩ := computeWorkflowSnapshotStats_spec snapshot (ws snapshot rfl)
    refine ⟨m, s, mergeMutableStateUpdateSessionStats [m, s], hm, hs, by simp [computeMutableStateUpdateStats, hm, hs], ?_, fun k => ?_⟩
    · simp [mergeMutableStateUpdateSessionStats, mergeStep, zeroStats]
    · simp [taskCount_merge, addCount_none_right]

theorem update_stats_is_mutation_plus_snapshot_witness :
    (exampleUpdateRequestNoSnapshot.NewWorkflowSnapshot = none ∧
      computeMutableStateUpdateStats exampleUpdateRequestNoSnapshot =
        computeWorkflowMutationStats exampleUpdateRequestNoSnapshot.UpdateWorkflowMutation) ∧
    (exampleUpdateRequest.NewWorkflowSnapshot = some (exampleSnapshot 5 tasksA1B3) ∧
      WellFormedUpdateRequest exampleUpdateRequest ∧
      (computeWorkflowMutationStats exampleUpdateRequest.UpdateWorkflowMutation).map
        (·.ActivityInfoSize) = some 10 ∧
      (computeWorkflowSnapshotStats (exampleSnapshot 5 tasksA1B3)).map
        (·.ActivityInfoSize) = some 5 ∧
      (computeMutableStateUpdateStats exampleUpdateRequest).map (·.ActivityInfoSize) = some 15) ∧
    ∃ m s r, computeWorkflowMutationStats exampleUpdateRequest.UpdateWorkflowMutation = some m ∧
      computeWorkflowSnapshotStats (exampleSnapshot 5 tasksA1B3) = some s ∧
      computeMutableStateUpdateStats exampleUpdateRequest = some r ∧
      r.ActivityInfoSize = m.ActivityInfoSize + s.ActivityInfoSize :=
  ⟨⟨rfl, update_stats_is_mutation_plus_snapshot.1 exampleUpdateRequestNoSnapshot rfl⟩,
   ⟨rfl, by with_unfolding_all decide, by with_unfolding_all decide, by with_unfolding_all decide, by with_unfolding_all decide⟩,
   (update_stats_is_mutation_plus_snapshot.2 exampleUpdateRequest _ rfl (by with_unfolding_all decide)).imp
     fun _ hm => hm.imp fun _ hs => hs.imp fun _ h => ⟨h.1, h.2.1, h.2.2.1, h.2.2.2.1.2.2.1⟩⟩

/-- C9: for every well-formed conflict-resolve request the result of the chain
of binary merges is the merge of the present partial statistics taken in any
order. -/
theorem conflictResolve_merge_order_irrelevant {K T : Type} [DecidableEq K]
    (req : InternalConflictResolveWorkflowExecutionRequest K T)
    (h : WellFormedConflictResolveRequest req) :
    ∃ r parts, computeMutableStateConflictResolveStats req = some r ∧
      presentPartialStats req = some parts ∧
      ∀ l : List (MutableStateUpdateSessionStats K), l.Perm parts →
        SameStats r (mergeMutableStateUpdateSessionStats l) := by
  obtain ⟨reset, snapshot, mutation⟩ := req
  obtain ⟨wr, ws, wm⟩ := h
  obtain ⟨a, ha, -, -⟩ := computeWorkflowSnapshotStats_spec reset wr
  cases snapshot with
  | none =>
    cases mutation with
    | none =>
      refine ⟨a, [a], by simp [computeMutableStateConflictResolveStats, ha],
        by simp [presentPartialStats, ha], fun l hp => ?_⟩
      exact (sameStats_merge_singleton a).symm.trans (sameStats_merge_perm hp.symm)
    | some mutation =>
      obtain ⟨c, hc, -, -⟩ := computeWorkflowMutationStats_spec mutation (wm mutation rfl)
      refine ⟨mergeMutableStateUpdateSessionStats [a, c], [a, c], by simp [computeMutableStateConflictResolveStats, ha, hc],
        by simp [presentPartialStats, ha, hc], fun l hp => ?_⟩
      exact sameStats_merge_perm hp.symm
  | some snapshot =>
    obtain ⟨b, hb, -, -⟩ := computeWorkflowSnapshotStats_spec snapshot (ws snapshot rfl)
    cases mutation with
    | none =>
      refine ⟨mergeMutableStateUpdateSessionStats [a, b], [a, b], by simp [computeMutableStateConflictResolveStats, ha, hb],
        by simp [presentPartialStats, ha, hb], fun l hp => ?_⟩
      exact sameStats_merge_perm hp.symm
    | some mutation =>
      obtain ⟨c, hc, -, -⟩ := computeWorkflowMutationStats_spec mutation (wm mutation rfl)
      refine ⟨mergeMutableStateUpdateSessionStats [mergeMutableStateUpdateSessionStats [a, b], c],
        [a, b, c], by simp [computeMutableStateConflictResolveStats, ha, hb, hc],
        by simp [presentPartialStats, ha, hb, hc], fun l hp => ?_⟩
      exact (sameStats_merge_nested_left a b c).trans (sameStats_merge_perm hp.symm)

theorem conflictResolve_merge_order_irrelevant_witness :
    WellFormedConflictResolveRequest exampleConflictResolveRequest3 ∧
    ∃ r parts, computeMutableStateConflictResolveStats exampleConflictResolveRequest3 = some r ∧
      presentPartialStats exampleConflictResolveRequest3 = some parts ∧
      ∀ l : List (MutableStateUpdateSessionStats String), l.Perm parts →
        SameStats r (mergeMutableStateUpdateSessionStats l) :=
  ⟨by with_unfolding_all decide, conflictResolve_merge_order_irrelevant exampleConflictResolveRequest3 (by with_unfolding_all decide)⟩

/-- C10: for a conflict-resolve request with a reset snapshot, a new snapshot
and no current mutation, the task-category mapping of the result has exactly
the categories of the two snapshots and maps each to the number of tasks under
it in the reset snapshot plus the number under it in the new snapshot, a
snapshot without the category counting 0. -/
theorem conflictResolve_task_counts {K T : Type} [DecidableEq K]
    (req : InternalConflictResolveWorkflowExecutionRequest K T)
    (snapshot : InternalWorkflowSnapshot K T)
    (hn : req.NewWorkflowSnapshot = some snapshot) (hc : req.CurrentWorkflowMutation = none)
    (h : WellFormedConflictResolveRequest req) :
    ∃ r, computeMutableStateConflictResolveStats req = some r ∧
      ∀ k, taskCount r k =
        if k ∈ req.ResetWorkflowSnapshot.TasksByCategory.keys ∨ k ∈ snapshot.TasksByCategory.keys
        then some (len ((AList.lookup k req.ResetWorkflowSnapshot.TasksByCategory).getD []) +
          len ((AList.lookup k snapshot.TasksByCategory).getD []))
        else none := by
  obtain ⟨reset, new, mutation⟩ := req
  obtain rfl : new = some snapshot := hn
  obtain rfl : mutation = none := hc
  obtain ⟨wr, ws, -⟩ := h
  obtain ⟨a, ha, -, hta⟩ := computeWorkflowSnapshotStats_spec reset wr
  obtain ⟨b, hb, -, htb⟩ := computeWorkflowSnapshotStats_spec snapshot (ws snapshot rfl)
  refine ⟨mergeMutableStateUpdateSessionStats [a, b],
    by simp [computeMutableStateConflictResolveStats, ha, hb], fun k => ?_⟩
  have h1 : taskCount a k = (AList.lookup k reset.TasksByCategory).map len := by
    rw [taskCount, hta, lookup_computeTaskCountByCategory]
  have h2 : taskCount b k = (AList.lookup k snapshot.TasksByCategory).map len := by
    rw [taskCount, htb, lookup_computeTaskCountByCategory]
  rw [taskCount_merge]
  simp only [List.map_cons, List.map_nil, List.foldr_cons, List.foldr_nil, addCount_none_right,
    h1, h2, ← AList.mem_keys, ← AList.lookup_isSome]
  cases AList.lookup k reset.TasksByCategory <;>
    cases AList.lookup k snapshot.TasksByCategory <;> simp [addCount, len]

theorem conflictResolve_task_counts_witness :
    (exampleConflictResolveRequest.NewWorkflowSnapshot = some (exampleSnapshot 5 tasksA1B3) ∧
      exampleConflictResolveRequest.CurrentWorkflowMutation = none ∧
      WellFormedConflictResolveRequest exampleConflictResolveRequest) ∧
    ∃ r, computeMutableStateConflictResolveStats exampleConflictResolveRequest = some r ∧
      ∀ k, taskCount r k =
        if k ∈ exampleConflictResolveRequest.ResetWorkflowSnapshot.TasksByCategory.keys ∨
          k ∈ (exampleSnapshot 5 tasksA1B3).TasksByCategory.keys
        then some
          (len ((AList.lookup k
            exampleConflictResolveRequest.ResetWorkflowSnapshot.TasksByCategory).getD []) +
          len ((AList.lookup k (exampleSnapshot 5 tasksA1B3).TasksByCategory).getD []))
        else none :=
  ⟨⟨rfl, rfl, by with_unfolding_all decide⟩,
   conflictResolve_task_counts exampleConflictResolveRequest _ rfl rfl (by with_unfolding_all decide)⟩

/-- The example of C10 evaluated: reset `{A: 2 tasks}` and new
`{A: 1 task, B: 3 tasks}` give the mapping `{A: 3, B: 3}` and no other key. -/
theorem conflictResolve_task_counts_example :
    (computeMutableStateConflictResolveStats exampleConflictResolveRequest).map
      (fun r => (taskCount r "A", taskCount r "B", r.TaskCountByCategory.keys.length)) =
      some (some 3, some 3, 2) := by
  with_unfolding_all decide

/-- C11: on a well-formed mutation the statistics count upserts and deletes
independently: for each kind the count is the number of upserted entries and
the delete count is the number of deleted entries; the timer size is the sum
of the identifier lengths of the upserted timers and the other sizes are the
sums of the sizes of the upserted entries. -/
theorem mutation_counts_upserts_and_deletes {K T : Type} [DecidableEq K]
    (req : InternalWorkflowMutation K T) (h : WellFormedMutation req) :
    ∃ s, computeWorkflowMutationStats req = some s ∧
      (s.TimerInfoCount = len req.UpsertTimerInfos ∧
        s.TimerInfoSize = (req.UpsertTimerInfos.reduceOption.map fun ti => len ti.TimerID).sum ∧
        s.DeleteTimerInfoCount = len req.DeleteTimerInfos) ∧
      (s.ActivityInfoCount = len req.UpsertActivityInfos ∧
        s.ActivityInfoSize = sizeSum computeActivityInfoSize req.UpsertActivityInfos ∧
        s.DeleteActivityInfoCount = len req.DeleteActivityInfos) ∧
      (s.ChildInfoCount = len req.UpsertChildExecutionInfos ∧
        s.ChildInfoSize = sizeSum computeChildInfoSize req.UpsertChildExecutionInfos ∧
        s.DeleteChildInfoCount = len req.DeleteChildExecutionInfos) ∧
      (s.SignalInfoCount = len req.UpsertSignalInfos ∧
        s.SignalInfoSize = sizeSum computeSignalInfoSize req.UpsertSignalInfos ∧
        s.DeleteSignalInfoCount = len req.DeleteSignalInfos) ∧
      (s.RequestCancelInfoCount = len req.UpsertRequestCancelInfos ∧
        s.DeleteRequestCancelInfoCount = len req.DeleteRequestCancelInfos) := by
  refine ⟨_, computeWorkflowMutationStats_eq req h, ⟨rfl, ?_, rfl⟩, ⟨rfl, rfl, rfl⟩,
    ⟨rfl, rfl, rfl⟩, ⟨rfl, rfl, rfl⟩, rfl, rfl⟩
  exact sizeSum_eq_sum computeTimerInfoSize (fun ti => len ti.TimerID) (fun _ => rfl) rfl _

theorem mutation_counts_upserts_and_deletes_witness :
    (WellFormedMutation (exampleMutation 10 tasksA2) ∧
      len (exampleMutation 10 tasksA2).UpsertTimerInfos = 0 ∧
      len (exampleMutation 10 tasksA2).DeleteTimerInfos = 2 ∧
      (computeWorkflowMutationStats (exampleMutation 10 tasksA2)).map
        (fun s => (s.TimerInfoCount, s.TimerInfoSize, s.DeleteTimerInfoCount)) =
        some (0, 0, 2)) ∧
    ∃ s, computeWorkflowMutationStats (exampleMutation 10 tasksA2) = some s ∧
      s.TimerInfoCount = len (exampleMutation 10 tasksA2).UpsertTimerInfos ∧
      s.DeleteTimerInfoCount = len (exampleMutation 10 tasksA2).DeleteTimerInfos :=
  ⟨⟨by with_unfolding_all decide, by with_unfolding_all decide, by with_unfolding_all decide, by with_unfolding_all decide⟩,
   (mutation_counts_upserts_and_deletes (exampleMutation 10 tasksA2) (by with_unfolding_all decide)).imp
     fun _ h => ⟨h.1, h.2.1.1, h.2.1.2.2⟩⟩

/-- C12, as amended: a well-formed snapshot with exactly three activities
whose identifier lengths are 2, 3 and 4, without scheduled or started events
and with empty details payloads, has activity size 9 and activity count 3,
from `computeWorkflowSnapshotStats` and from `computeMutableStateCreateStats`. -/
theorem snapshot_three_activities_size {K T : Type} [DecidableEq K]
    (req : InternalWorkflowSnapshot K T) (a₁ a₂ a₃ : InternalActivityInfo)
    (h : WellFormedSnapshot req)
    (hacts : req.ActivityInfos = [some a₁, some a₂, some a₃])
    (hids : ([a₁, a₂, a₃].map fun a => len a.ActivityID).Perm [2, 3, 4])
    (hevents : ∀ a ∈ [a₁, a₂, a₃], a.ScheduledEvent = none ∧ a.StartedEvent = none)
    (hdetails : ∀ a ∈ [a₁, a₂, a₃], len a.Details = 0) :
    ∃ s, computeWorkflowSnapshotStats req = some s ∧
      computeMutableStateCreateStats ⟨req⟩ = some s ∧
      s.ActivityInfoSize = 9 ∧ s.ActivityInfoCount = 3 := by
  refine ⟨_, computeWorkflowSnapshotStats_eq req h, computeWorkflowSnapshotStats_eq req h, ?_, ?_⟩
  · have hs := hids.sum_eq
    simp only [List.map_cons, List.map_nil, List.sum_cons, List.sum_nil] at hs
    have e₁ := hevents a₁ (by simp)
    have e₂ := hevents a₂ (by simp)
    have e₃ := hevents a₃ (by simp)
    have d₁ := hdetails a₁ (by simp)
    have d₂ := hdetails a₂ (by simp)
    have d₃ := hdetails a₃ (by simp)
    simp only [hacts, sizeSum, computeActivityInfoSize, e₁.1, e₁.2, e₂.1, e₂.2, e₃.1, e₃.2,
      d₁, d₂, d₃, List.map_cons, List.map_nil, List.sum_cons, List.sum_nil,
      Option.bind_eq_bind, Option.some_bind, Option.pure_def, Option.getD_some]
    simp only [add_zero] at hs ⊢
    rw [hs]
    with_unfolding_all decide
  · simp only [hacts, len_cons, len_nil]
    with_unfolding_all decide

theorem snapshot_three_activities_size_witness :
    (WellFormedSnapshot threeActivitiesSnapshot ∧
      threeActivitiesSnapshot.ActivityInfos =
        [some (exampleActivity 4), some (exampleActivity 2), some (exampleActivity 3)]) ∧
    ∃ s, computeWorkflowSnapshotStats threeActivitiesSnapshot = some s ∧
      computeMutableStateCreateStats ⟨threeActivitiesSnapshot⟩ = some s ∧
      s.ActivityInfoSize = 9 ∧ s.ActivityInfoCount = 3 :=
  ⟨⟨by with_unfolding_all decide, rfl⟩,
   snapshot_three_activities_size threeActivitiesSnapshot _ _ _ (by with_unfolding_all decide) rfl
     (by with_unfolding_all decide) (by with_unfolding_all decide) (by with_unfolding_all decide)⟩

/-- C12, as stated, fails: `detailsSnapshot` is well formed and has exactly
three activities, of identifier lengths 2, 3 and 4 and without scheduled or
started events, and its activity size is 10, not 9, because the details
payload of the first activity counts. -/
theorem snapshot_three_activities_size_counterexample :
    WellFormedSnapshot detailsSnapshot ∧
    detailsSnapshot.ActivityInfos =
      [some activityWithDetails, some (exampleActivity 3), some (exampleActivity 4)] ∧
    [len activityWithDetails.ActivityID, len (exampleActivity 3).ActivityID,
      len (exampleActivity 4).ActivityID] = [2, 3, 4] ∧
    [activityWithDetails.ScheduledEvent, (exampleActivity 3).ScheduledEvent,
      (exampleActivity 4).ScheduledEvent, activityWithDetails.StartedEvent,
      (exampleActivity 3).StartedEvent, (exampleActivity 4).StartedEvent] =
      [none, none, none, none, none, none] ∧
    Option.map MutableStateUpdateSessionStats.ActivityInfoSize
      (computeWorkflowSnapshotStats detailsSnapshot) = some 10 ∧
    Option.map MutableStateUpdateSessionStats.ActivityInfoSize
      (computeMutableStateCreateStats ⟨detailsSnapshot⟩) = some 10 ∧
    Option.map MutableStateUpdateSessionStats.ActivityInfoSize
      (computeWorkflowSnapshotStats detailsSnapshot) ≠ some 9 := by
  with_unfolding_all decide

/-- C13: on a well-formed snapshot the statistics of
`computeWorkflowSnapshotStats`, which are those of
`computeMutableStateCreateStats`, have buffered-event size 0 and all five
delete counts 0. -/
theorem snapshot_stats_no_buffered_no_deletes {K T : Type} [DecidableEq K]
    (req : InternalWorkflowSnapshot K T) (h : WellFormedSnapshot req) :
    ∃ s, computeWorkflowSnapshotStats req = some s ∧
      computeMutableStateCreateStats ⟨req⟩ = some s ∧
      s.BufferedEventsSize = 0 ∧ s.DeleteActivityInfoCount = 0 ∧ s.DeleteTimerInfoCount = 0 ∧
      s.DeleteChildInfoCount = 0 ∧ s.DeleteSignalInfoCount = 0 ∧
      s.DeleteRequestCancelInfoCount = 0 :=
  ⟨_, computeWorkflowSnapshotStats_eq req h, computeWorkflowSnapshotStats_eq req h,
    rfl, rfl, rfl, rfl, rfl, rfl⟩

theorem snapshot_stats_no_buffered_no_deletes_witness :
    WellFormedSnapshot (exampleSnapshot 5 tasksA1B3) ∧
    ∃ s, computeWorkflowSnapshotStats (exampleSnapshot 5 tasksA1B3) = some s ∧
      computeMutableStateCreateStats ⟨exampleSnapshot 5 tasksA1B3⟩ = some s ∧
      s.BufferedEventsSize = 0 ∧ s.DeleteActivityInfoCount = 0 ∧ s.DeleteTimerInfoCount = 0 ∧
      s.DeleteChildInfoCount = 0 ∧ s.DeleteSignalInfoCount = 0 ∧
      s.DeleteRequestCancelInfoCount = 0 :=
  ⟨by with_unfolding_all decide, snapshot_stats_no_buffered_no_deletes (exampleSnapshot 5 tasksA1B3) (by with_unfolding_all decide)⟩

/-- C14: two mutations with the same execution descriptor, upsert collections
and new buffered event, whatever their delete collections and tasks, get the
same total size and the same six per-kind sizes; on a well-formed mutation
both results exist. -/
theorem mutation_sizes_ignore_deletes_and_tasks {K T : Type} [DecidableEq K]
    (m₁ m₂ : InternalWorkflowMutation K T) (h : SameSizedContent m₁ m₂) :
    (computeWorkflowMutationStats m₁).map sizeFields =
      (computeWorkflowMutationStats m₂).map sizeFields ∧
    (WellFormedMutation m₁ →
      ∃ s₁ s₂, computeWorkflowMutationStats m₁ = some s₁ ∧
        computeWorkflowMutationStats m₂ = some s₂ ∧ sizeFields s₁ = sizeFields s₂) := by
  obtain ⟨he, ha, ht, hc, hs, hr, hb⟩ := h
  have key : (computeWorkflowMutationStats m₁).map sizeFields =
      (computeWorkflowMutationStats m₂).map sizeFields := by
    simp only [computeWorkflowMutationStats, he, ha, ht, hc, hs, hr, hb]
    cases computeExecutionInfoSize m₂.ExecutionInfo with
    | none => simp only [Option.bind_eq_bind, Option.none_bind, Option.map_none']
    | some e =>
      cases rangeCountSize computeActivityInfoSize m₂.UpsertActivityInfos with
      | none => simp only [Option.bind_eq_bind, Option.some_bind, Option.none_bind,
          Option.map_none']
      | some a =>
        cases rangeCountSize computeTimerInfoSize m₂.UpsertTimerInfos with
        | none => simp only [Option.bind_eq_bind, Option.some_bind, Option.none_bind,
            Option.map_none']
        | some t =>
          cases rangeCountSize computeChildInfoSize m₂.UpsertChildExecutionInfos with
          | none => simp only [Option.bind_eq_bind, Option.some_bind, Option.none_bind,
              Option.map_none']
          | some c =>
            cases rangeCountSize computeSignalInfoSize m₂.UpsertSignalInfos with
            | none => simp only [Option.bind_eq_bind, Option.some_bind, Option.none_bind,
                Option.map_none']
            | some s => simp only [Option.bind_eq_bind, Option.some_bind, Option.pure_def,
                Option.map_some', sizeFields]
  refine ⟨key, fun w => ?_⟩
  have w₂ : WellFormedMutation m₂ := by
    obtain ⟨w1, w2, w3, w4, w5⟩ := w
    exact ⟨he ▸ w1, ha ▸ w2, ht ▸ w3, hc ▸ w4, hs ▸ w5⟩
  refine ⟨_, _, computeWorkflowMutationStats_eq m₁ w, computeWorkflowMutationStats_eq m₂ w₂, ?_⟩
  simp only [sizeFields, he, ha, ht, hc, hs, hb]

theorem mutation_sizes_ignore_deletes_and_tasks_witness :
    SameSizedContent (exampleMutation 10 tasksA2) exampleMutationOtherDeletes ∧
    (computeWorkflowMutationStats (exampleMutation 10 tasksA2)).map sizeFields =
      (computeWorkflowMutationStats exampleMutationOtherDeletes).map sizeFields ∧
    (computeWorkflowMutationStats (exampleMutation 10 tasksA2)).map sizeFields =
      some [17, 4, 10, 0, 0, 0, 3] :=
  ⟨by with_unfolding_all decide,
   (mutation_sizes_ignore_deletes_and_tasks (exampleMutation 10 tasksA2)
     exampleMutationOtherDeletes (by with_unfolding_all decide)).1,
   by with_unfolding_all decide⟩

/-- C15: on a well-formed full state the buffered-event count is the number of
buffered-event entries, whatever their payloads, and the buffered-event size
is the sum of the payload lengths. -/
theorem full_state_buffered_events (state : InternalWorkflowMutableState)
    (h : WellFormedResponse ⟨some state⟩) :
    ∃ s, computeMutableStateStats ⟨some state⟩ = some s ∧
      s.BufferedEventsCount = len state.BufferedEvents ∧
      s.BufferedEventsSize = (state.BufferedEvents.reduceOption.map fun be => len be.Data).sum := by
  refine ⟨_, computeMutableStateStats_eq state h, rfl, ?_⟩
  exact sizeSum_eq_sum bufferedEventSize (fun be => len be.Data) (fun _ => rfl) rfl _

theorem full_state_buffered_events_witness :
    (WellFormedResponse ⟨some exampleState⟩ ∧
      exampleState.BufferedEvents = [some ⟨[]⟩, some ⟨[9, 9, 9, 9]⟩]) ∧
    ∃ s, computeMutableStateStats ⟨some exampleState⟩ = some s ∧
      s.BufferedEventsCount = len exampleState.BufferedEvents ∧
      s.BufferedEventsSize =
        (exampleState.BufferedEvents.reduceOption.map fun be => len be.Data).sum :=
  ⟨⟨by with_unfolding_all decide, rfl⟩, full_state_buffered_events exampleState (by with_unfolding_all decide)⟩

/-- C16, as amended: on well-formed input whose bytes and entries, added up
exactly, are fewer than `2^63`, every numeric field of the result of each of
the four entry points stands for an integer that is at least 0, and so does
every count of the task-category mapping. -/
theorem stats_nonnegative_below_int_limit {K T : Type} [DecidableEq K] :
    (∀ req : InternalGetWorkflowExecutionResponse, WellFormedResponse req →
      responseWeight req < intLimit →
      ∃ s, computeMutableStateStats req = some s ∧ ∀ x ∈ fullStateFields s, 0 ≤ x.val) ∧
    (∀ req : InternalUpdateWorkflowExecutionRequest K T, WellFormedUpdateRequest req →
      updateRequestWeight req < intLimit →
      ∃ s, computeMutableStateUpdateStats req = some s ∧ NonNegative s) ∧
    (∀ req : InternalCreateWorkflowExecutionRequest K T, WellFormedCreateRequest req →
      createRequestWeight req < intLimit →
      ∃ s, computeMutableStateCreateStats req = some s ∧ NonNegative s) ∧
    (∀ req : InternalConflictResolveWorkflowExecutionRequest K T,
      WellFormedConflictResolveRequest req →
      conflictResolveRequestWeight req < intLimit →
      ∃ s, computeMutableStateConflictResolveStats req = some s ∧ NonNegative s) := by
  refine ⟨?_, ?_, ?_, ?_⟩
  · rintro ⟨state⟩ h hw
    cases state with
    | none => exact absurd h (by simp [WellFormedResponse])
    | some state => exact fullState_nonneg state h hw
  · rintro ⟨mutation, snapshot⟩ ⟨wm, ws⟩ hw
    cases snapshot with
    | none =>
      have hw₁ : mutationWeight mutation < intLimit := by
        simp only [updateRequestWeight, Nat.add_zero] at hw; exact hw
      obtain ⟨m, hm, him⟩ := boundedBy_mutation mutation wm hw₁
      exact ⟨m, by simp [computeMutableStateUpdateStats, hm], him.nonNegative⟩
    | some snapshot =>
      simp only [updateRequestWeight] at hw
      obtain ⟨m, hm, him⟩ := boundedBy_mutation mutation wm (by omega)
      obtain ⟨s, hs, his⟩ := boundedBy_snapshot snapshot (ws snapshot rfl) (by omega)
      exact ⟨mergeMutableStateUpdateSessionStats [m, s],
        by simp [computeMutableStateUpdateStats, hm, hs],
        (boundedBy_merge_pair m s _ _ him his hw).nonNegative⟩
  · intro req h hw
    obtain ⟨s, hs, his⟩ := boundedBy_snapshot req.NewWorkflowSnapshot h hw
    exact ⟨s, hs, his.nonNegative⟩
  · rintro ⟨reset, snapshot, mutation⟩ ⟨wr, ws, wm⟩ hw
    cases snapshot with
    | none =>
      cases mutation with
      | none =>
        simp only [conflictResolveRequestWeight, Nat.add_zero] at hw
        obtain ⟨a, ha, hia⟩ := boundedBy_snapshot reset wr hw
        exact ⟨a, by simp [computeMutableStateConflictResolveStats, ha], hia.nonNegative⟩
      | some mutation =>
        simp only [conflictResolveRequestWeight, Nat.add_zero] at hw
        obtain ⟨a, ha, hia⟩ := boundedBy_snapshot reset wr (by omega)
        obtain ⟨c, hc, hic⟩ := boundedBy_mutation mutation (wm mutation rfl) (by omega)
        exact ⟨mergeMutableStateUpdateSessionStats [a, c],
          by simp [computeMutableStateConflictResolveStats, ha, hc],
          (boundedBy_merge_pair a c _ _ hia hic hw).nonNegative⟩
    | some snapshot =>
      cases mutation with
      | none =>
        simp only [conflictResolveRequestWeight, Nat.add_zero] at hw
        obtain ⟨a, ha, hia⟩ := boundedBy_snapshot reset wr (by omega)
        obtain ⟨b, hb, hib⟩ := boundedBy_snapshot snapshot (ws snapshot rfl) (by omega)
        exact ⟨mergeMutableStateUpdateSessionStats [a, b],
          by simp [computeMutableStateConflictResolveStats, ha, hb],
          (boundedBy_merge_pair a b _ _ hia hib hw).nonNegative⟩
      | some mutation =>
        simp only [conflictResolveRequestWeight] at hw
        obtain ⟨a, ha, hia⟩ := boundedBy_snapshot reset wr (by omega)
        obtain ⟨b, hb, hib⟩ := boundedBy_snapshot snapshot (ws snapshot rfl) (by omega)
        obtain ⟨c, hc, hic⟩ := boundedBy_mutation mutation (wm mutation rfl) (by omega)
        exact ⟨mergeMutableStateUpdateSessionStats [mergeMutableStateUpdateSessionStats [a, b], c],
          by simp [computeMutableStateConflictResolveStats, ha, hb, hc],
          (boundedBy_merge_pair _ c _ _ (boundedBy_merge_pair a b _ _ hia hib (by omega)) hic
            hw).nonNegative⟩

theorem stats_nonnegative_below_int_limit_witness :
    ((WellFormedResponse exampleResponse ∧ responseWeight exampleResponse < intLimit) ∧
      ∃ s, computeMutableStateStats exampleResponse = some s ∧
        ∀ x ∈ fullStateFields s, 0 ≤ x.val) ∧
    ((WellFormedUpdateRequest exampleUpdateRequest ∧
        updateRequestWeight exampleUpdateRequest < intLimit) ∧
      ∃ s, computeMutableStateUpdateStats exampleUpdateRequest = some s ∧ NonNegative s) ∧
    ((WellFormedCreateRequest exampleCreateRequest ∧
        createRequestWeight exampleCreateRequest < intLimit) ∧
      ∃ s, computeMutableStateCreateStats exampleCreateRequest = some s ∧ NonNegative s) ∧
    ((WellFormedConflictResolveRequest exampleConflictResolveRequest3 ∧
        conflictResolveRequestWeight exampleConflictResolveRequest3 < intLimit) ∧
      ∃ s, computeMutableStateConflictResolveStats exampleConflictResolveRequest3 = some s ∧
        NonNegative s) :=
  ⟨⟨⟨by decide, by decide⟩,
     (@stats_nonnegative_below_int_limit String Nat _).1 exampleResponse (by decide)
       (by decide)⟩,
   ⟨⟨by decide, by decide⟩,
     stats_nonnegative_below_int_limit.2.1 exampleUpdateRequest (by decide) (by decide)⟩,
   ⟨⟨by decide, by decide⟩,
     stats_nonnegative_below_int_limit.2.2.1 exampleCreateRequest (by decide) (by decide)⟩,
   ⟨⟨by decide, by decide⟩,
     stats_nonnegative_below_int_limit.2.2.2 exampleConflictResolveRequest3 (by decide)
       (by decide)⟩⟩

/-- C16, as stated, fails: the create request whose snapshot holds `2^31`
times the pointer to one activity with `2^32` bytes of details is well formed,
and its activity size and its total size are the smallest Go `int`, `-2^63`:
the sum `2^31 * 2^32 = 2^63` wraps. -/
theorem stats_nonnegative_counterexample :
    WellFormedCreateRequest ⟨repeatedActivitySnapshot 2147483648 4294967296⟩ ∧
    Option.map MutableStateUpdateSessionStats.ActivityInfoSize
      (computeMutableStateCreateStats ⟨repeatedActivitySnapshot 2147483648 4294967296⟩) =
      some minInt ∧
    Option.map MutableStateUpdateSessionStats.MutableStateSize
      (computeMutableStateCreateStats ⟨repeatedActivitySnapshot 2147483648 4294967296⟩) =
      some minInt ∧
    minInt.val = -9223372036854775808 ∧
    minInt.val < 0 := by
  have hmin : minInt.val = -9223372036854775808 := by
    show wrap (-9223372036854775808) = -9223372036854775808
    unfold wrap; omega
  have hact : sizeSum computeActivityInfoSize
      (repeatedActivitySnapshot 2147483648 4294967296).ActivityInfos = minInt := by
    apply GoInt.eq_of_val_eq
    rw [hmin, val_activitySize_repeated _ _ (by unfold intLimit; omega)]
    unfold wrap; norm_num
  have hstats := createStats_repeated 2147483648 4294967296
  rw [hact] at hstats
  exact ⟨wellFormed_repeatedActivitySnapshot _ _, hstats.1, hstats.2, hmin,
    by rw [hmin]; omega⟩

/-- C17: on well-formed input (state and execution descriptors present, no
nil entry in a collection) each of the four entry points returns a statistics
value, whatever optional events, new snapshot, current mutation or new
buffered event are present and whatever the collections hold, empty ones
included. -/
theorem entry_points_total {K T : Type} [DecidableEq K] :
    (∀ req : InternalGetWorkflowExecutionResponse, WellFormedResponse req →
      ∃ s, computeMutableStateStats req = some s) ∧
    (∀ req : InternalUpdateWorkflowExecutionRequest K T, WellFormedUpdateRequest req →
      ∃ s, computeMutableStateUpdateStats req = some s) ∧
    (∀ req : InternalCreateWorkflowExecutionRequest K T, WellFormedCreateRequest req →
      ∃ s, computeMutableStateCreateStats req = some s) ∧
    (∀ req : InternalConflictResolveWorkflowExecutionRequest K T,
      WellFormedConflictResolveRequest req →
      ∃ s, computeMutableStateConflictResolveStats req = some s) := by
  refine ⟨?_, ?_, ?_, ?_⟩
  · rintro ⟨state⟩ h
    cases state with
    | none => exact absurd h (by simp [WellFormedResponse])
    | some state => exact ⟨_, computeMutableStateStats_eq state h⟩
  · rintro ⟨mutation, snapshot⟩ ⟨wm, ws⟩
    have hm := computeWorkflowMutationStats_eq mutation wm
    cases snapshot with
    | none => exact ⟨_, by simpa [computeMutableStateUpdateStats] using hm⟩
    | some snapshot =>
      have hs := computeWorkflowSnapshotStats_eq snapshot (ws snapshot rfl)
      simp [computeMutableStateUpdateStats, hm, hs]
  · intro req h
    exact ⟨_, computeWorkflowSnapshotStats_eq req.NewWorkflowSnapshot h⟩
  · rintro ⟨reset, snapshot, mutation⟩ ⟨wr, ws, wm⟩
    have ha := computeWorkflowSnapshotStats_eq reset wr
    cases snapshot with
    | none =>
      cases mutation with
      | none => simp [computeMutableStateConflictResolveStats, ha]
      | some mutation =>
        have hc := computeWorkflowMutationStats_eq mutation (wm mutation rfl)
        simp [computeMutableStateConflictResolveStats, ha, hc]
    | some snapshot =>
      have hb := computeWorkflowSnapshotStats_eq snapshot (ws snapshot rfl)
      cases mutation with
      | none => simp [computeMutableStateConflictResolveStats, ha, hb]
      | some mutation =>
        have hc := computeWorkflowMutationStats_eq mutation (wm mutation rfl)
        simp [computeMutableStateConflictResolveStats, ha, hb, hc]

theorem entry_points_total_witness :
    (WellFormedResponse exampleResponse ∧
      ∃ s, computeMutableStateStats exampleResponse = some s) ∧
    (WellFormedUpdateRequest exampleUpdateRequestNoSnapshot ∧
      ∃ s, computeMutableStateUpdateStats exampleUpdateRequestNoSnapshot = some s) ∧
    (WellFormedCreateRequest exampleCreateRequest ∧
      ∃ s, computeMutableStateCreateStats exampleCreateRequest = some s) ∧
    (WellFormedConflictResolveRequest exampleConflictResolveRequest ∧
      ∃ s, computeMutableStateConflictResolveStats exampleConflictResolveRequest = some s) :=
  ⟨⟨by with_unfolding_all decide, (@entry_points_total String Nat _).1 exampleResponse (by with_unfolding_all decide)⟩,
   ⟨by with_unfolding_all decide, entry_points_total.2.1 exampleUpdateRequestNoSnapshot (by with_unfolding_all decide)⟩,
   ⟨by with_unfolding_all decide, entry_points_total.2.2.1 exampleCreateRequest (by with_unfolding_all decide)⟩,
   ⟨by with_unfolding_all decide, entry_points_total.2.2.2 exampleConflictResolveRequest (by with_unfolding_all decide)⟩⟩

/-- C18: the size of a child-execution record is the length of the payload of
its initiated event, 0 without the event, plus the length of the payload of
its started event, 0 without the event; it is the same for every identifier of
the record, and an absent event counts as a present one with empty payload. -/
theorem computeChildInfoSize_formula :
    (∀ ci : InternalChildExecutionInfo,
      computeChildInfoSize (some ci) =
        some ((ci.InitiatedEvent.map fun ev => len ev.Data).getD 0 +
          (ci.StartedEvent.map fun ev => len ev.Data).getD 0)) ∧
    (∀ (id₁ id₂ : Int) (wid₁ wid₂ : GoBytes) (initiated started : Option DataBlob),
      computeChildInfoSize (some ⟨id₁, initiated, wid₁, started⟩) =
        computeChildInfoSize (some ⟨id₂, initiated, wid₂, started⟩)) ∧
    (∀ (id : Int) (wid : GoBytes) (started : Option DataBlob),
      computeChildInfoSize (some ⟨id, none, wid, started⟩) =
        computeChildInfoSize (some ⟨id, some ⟨[]⟩, wid, started⟩)) ∧
    (∀ (id : Int) (wid : GoBytes) (initiated : Option DataBlob),
      computeChildInfoSize (some ⟨id, initiated, wid, none⟩) =
        computeChildInfoSize (some ⟨id, initiated, wid, some ⟨[]⟩⟩)) := by
  refine ⟨?_, ?_, ?_, ?_⟩
  · intro ci
    cases hi : ci.InitiatedEvent <;> cases hs : ci.StartedEvent <;>
      simp [computeChildInfoSize, hi, hs]
  · intros
    rfl
  · intro id wid started
    cases started <;> simp [computeChildInfoSize, len]
  · intro id wid initiated
    cases initiated <;> simp [computeChildInfoSize, len]

/-- C19: the statistics do not depend on the order in which the entries of the
collections are met: for a full state, a mutation and a snapshot, permuting
the entries of any collection, the task map included, leaves the result of
`computeMutableStateStats`, `computeWorkflowMutationStats` and
`computeWorkflowSnapshotStats` unchanged in every field. -/
theorem stats_independent_of_entry_order {K T : Type} [DecidableEq K] :
    (∀ s₁ s₂ : InternalWorkflowMutableState, ReorderedState s₁ s₂ →
      computeMutableStateStats ⟨some s₁⟩ = computeMutableStateStats ⟨some s₂⟩) ∧
    (∀ m₁ m₂ : InternalWorkflowMutation K T, ReorderedMutation m₁ m₂ →
      SameResult (computeWorkflowMutationStats m₁) (computeWorkflowMutationStats m₂)) ∧
    (∀ s₁ s₂ : InternalWorkflowSnapshot K T, ReorderedSnapshot s₁ s₂ →
      SameResult (computeWorkflowSnapshotStats s₁) (computeWorkflowSnapshotStats s₂)) := by
  refine ⟨?_, ?_, ?_⟩
  · rintro s₁ s₂ ⟨he, ha, ht, hc, hr, hs, hb⟩
    simp only [computeMutableStateStats, he, rangeCountSize_perm _ ha, rangeCountSize_perm _ ht,
      rangeCountSize_perm _ hc, rangeCountSize_perm _ hs, rangeCountSize_perm _ hb,
      len_perm hr, Option.bind_eq_bind, Option.some_bind]
  · rintro m₁ m₂ ⟨he, ha, da, ht, dt, hc, dc, hr, dr, hs, ds, hb, htasks⟩
    simp only [computeWorkflowMutationStats, he, rangeCountSize_perm _ ha,
      rangeCountSize_perm _ ht, rangeCountSize_perm _ hc, rangeCountSize_perm _ hs,
      len_perm hr, len_perm da, len_perm dt, len_perm dc, len_perm ds, len_perm dr, hb]
    cases computeExecutionInfoSize m₂.ExecutionInfo with
    | none => trivial
    | some e =>
      cases rangeCountSize computeActivityInfoSize m₂.UpsertActivityInfos with
      | none => trivial
      | some a =>
        cases rangeCountSize computeTimerInfoSize m₂.UpsertTimerInfos with
        | none => trivial
        | some t =>
          cases rangeCountSize computeChildInfoSize m₂.UpsertChildExecutionInfos with
          | none => trivial
          | some c =>
            cases rangeCountSize computeSignalInfoSize m₂.UpsertSignalInfos with
            | none => trivial
            | some s =>
              exact ⟨rfl, sameMap_computeTaskCountByCategory _ _ htasks⟩
  · rintro s₁ s₂ ⟨he, ha, ht, hc, hr, hs, htasks⟩
    simp only [computeWorkflowSnapshotStats, he, rangeCountSize_perm _ ha,
      rangeCountSize_perm _ ht, rangeCountSize_perm _ hc, rangeCountSize_perm _ hs,
      len_perm hr]
    cases computeExecutionInfoSize s₂.ExecutionInfo with
    | none => trivial
    | some e =>
      cases rangeCountSize computeActivityInfoSize s₂.ActivityInfos with
      | none => trivial
      | some a =>
        cases rangeCountSize computeTimerInfoSize s₂.TimerInfos with
        | none => trivial
        | some t =>
          cases rangeCountSize computeChildInfoSize s₂.ChildExecutionInfos with
          | none => trivial
          | some c =>
            cases rangeCountSize computeSignalInfoSize s₂.SignalInfos with
            | none => trivial
            | some s =>
              exact ⟨rfl, sameMap_computeTaskCountByCategory _ _ htasks⟩

theorem stats_independent_of_entry_order_witness :
    (ReorderedState exampleState exampleStateReordered ∧
      computeMutableStateStats ⟨some exampleState⟩ =
        computeMutableStateStats ⟨some exampleStateReordered⟩) ∧
    (ReorderedMutation (twoActivitiesMutation 2 5 tasksA1B3) (twoActivitiesMutation 5 2 tasksB3A1) ∧
      (computeWorkflowMutationStats (twoActivitiesMutation 2 5 tasksA1B3)).isSome = true ∧
      SameResult (computeWorkflowMutationStats (twoActivitiesMutation 2 5 tasksA1B3))
        (computeWorkflowMutationStats (twoActivitiesMutation 5 2 tasksB3A1))) ∧
    (ReorderedSnapshot (twoActivitiesSnapshot 2 5 tasksA1B3) (twoActivitiesSnapshot 5 2 tasksB3A1) ∧
      (computeWorkflowSnapshotStats (twoActivitiesSnapshot 2 5 tasksA1B3)).isSome = true ∧
      SameResult (computeWorkflowSnapshotStats (twoActivitiesSnapshot 2 5 tasksA1B3))
        (computeWorkflowSnapshotStats (twoActivitiesSnapshot 5 2 tasksB3A1))) :=
  have h₁ : ReorderedState exampleState exampleStateReordered :=
    ⟨rfl, List.Perm.swap _ _ _, List.Perm.refl _, List.Perm.refl _, List.Perm.refl _,
      List.Perm.refl _, List.Perm.swap _ _ _⟩
  have h₂ : ReorderedMutation (twoActivitiesMutation 2 5 tasksA1B3)
      (twoActivitiesMutation 5 2 tasksB3A1) :=
    ⟨rfl, List.Perm.swap _ _ _, List.Perm.refl _, List.Perm.swap _ _ _, List.Perm.refl _,
      List.Perm.refl _, List.Perm.refl _, List.Perm.refl _, List.Perm.refl _, List.Perm.refl _,
      List.Perm.refl _, rfl, List.Perm.swap _ _ _⟩
  have h₃ : ReorderedSnapshot (twoActivitiesSnapshot 2 5 tasksA1B3)
      (twoActivitiesSnapshot 5 2 tasksB3A1) :=
    ⟨rfl, List.Perm.swap _ _ _, List.Perm.swap _ _ _, List.Perm.refl _, List.Perm.refl _,
      List.Perm.refl _, List.Perm.swap _ _ _⟩
  ⟨⟨h₁, (@stats_independent_of_entry_order String Nat _).1 _ _ h₁⟩,
   ⟨h₂, by with_unfolding_all decide, stats_independent_of_entry_order.2.1 _ _ h₂⟩,
   ⟨h₃, by with_unfolding_all decide, stats_independent_of_entry_order.2.2 _ _ h₃⟩⟩
/-- C20: for a well-formed full state and a snapshot with the same execution
descriptor and the same activity, timer, child-execution, signal and
request-cancel collections, the full-state and the snapshot statistics have
the same execution-descriptor, activity, timer, child-execution and signal
sizes and the same activity, timer, child-execution, signal and
request-cancel counts, and the full-state total size is the snapshot total
size plus the full-state buffered-event size. -/
theorem full_state_agrees_with_snapshot {K T : Type} [DecidableEq K]
    (state : InternalWorkflowMutableState) (snapshot : InternalWorkflowSnapshot K T)
    (hshared : SharedContent state snapshot) (h : WellFormedResponse ⟨some state⟩) :
    ∃ fs ss, computeMutableStateStats ⟨some state⟩ = some fs ∧
      computeWorkflowSnapshotStats snapshot = some ss ∧
      (fs.ExecutionInfoSize = ss.ExecutionInfoSize ∧ fs.ActivityInfoSize = ss.ActivityInfoSize ∧
        fs.TimerInfoSize = ss.TimerInfoSize ∧ fs.ChildInfoSize = ss.ChildInfoSize ∧
        fs.SignalInfoSize = ss.SignalInfoSize) ∧
      (fs.ActivityInfoCount = ss.ActivityInfoCount ∧ fs.TimerInfoCount = ss.TimerInfoCount ∧
        fs.ChildInfoCount = ss.ChildInfoCount ∧ fs.SignalInfoCount = ss.SignalInfoCount ∧
        fs.RequestCancelInfoCount = ss.RequestCancelInfoCount) ∧
      fs.MutableStateSize = ss.MutableStateSize + fs.BufferedEventsSize := by
  obtain ⟨he, ha, ht, hc, hs, hr⟩ := hshared
  have w : WellFormedSnapshot snapshot := by
    obtain ⟨w1, w2, w3, w4, w5, -⟩ := h
    exact ⟨he ▸ w1, ha ▸ w2, ht ▸ w3, hc ▸ w4, hs ▸ w5⟩
  refine ⟨_, _, computeMutableStateStats_eq state h, computeWorkflowSnapshotStats_eq snapshot w,
    ?_, ?_, ?_⟩
  · simp only [he, ha, ht, hc, hs, and_self]
  · simp only [ha, ht, hc, hs, hr, and_self]
  · simp only [he, ha, ht, hc, hs]

theorem full_state_agrees_with_snapshot_witness :
    (SharedContent exampleState exampleStateSnapshot ∧
      WellFormedResponse ⟨some exampleState⟩) ∧
    ∃ fs ss, computeMutableStateStats ⟨some exampleState⟩ = some fs ∧
      computeWorkflowSnapshotStats exampleStateSnapshot = some ss ∧
      (fs.ExecutionInfoSize = ss.ExecutionInfoSize ∧ fs.ActivityInfoSize = ss.ActivityInfoSize ∧
        fs.TimerInfoSize = ss.TimerInfoSize ∧ fs.ChildInfoSize = ss.ChildInfoSize ∧
        fs.SignalInfoSize = ss.SignalInfoSize) ∧
      (fs.ActivityInfoCount = ss.ActivityInfoCount ∧ fs.TimerInfoCount = ss.TimerInfoCount ∧
        fs.ChildInfoCount = ss.ChildInfoCount ∧ fs.SignalInfoCount = ss.SignalInfoCount ∧
        fs.RequestCancelInfoCount = ss.RequestCancelInfoCount) ∧
      fs.MutableStateSize = ss.MutableStateSize + fs.BufferedEventsSize :=
  ⟨⟨⟨rfl, rfl, rfl, rfl, rfl, rfl⟩, by with_unfolding_all decide⟩,
   full_state_agrees_with_snapshot exampleState exampleStateSnapshot
     ⟨rfl, rfl, rfl, rfl, rfl, rfl⟩ (by with_unfolding_all decide)⟩

end Persistence
